import Mathlib

/-!
# Shallow embedding of the cryptocurrency classifier

This file embeds the scoring engine of the `Diplomska` repository
(`src/classifier/`): the metric analyzers (`analizatorji.py`), the data
model (`models.py`) and the aggregating classifier (`klasifikator.py`).

Conventions of the embedding:
* Python floats are modelled as exact rationals (`ℚ`); every constant in
  the source is decimal, so the arithmetic is identical.
* Market-cap rank and community counts are `ℕ`.
* A raw CoinGecko payload is modelled by the structure `Podatki`, holding
  one field per dictionary path that the engine reads; `Option` encodes a
  missing key.  Python's `x or y` fallback (where both `None` and `0` are
  falsy) is modelled by `pyOr`/`pyOrN`/`pyOrOpt`.
* `_izracunaj_starost` parses an ISO date and divides day counts; the
  payload field `starost_geneze` abstracts its output: `none` when
  `genesis_date` is absent or unparseable (Python returns `0` there,
  which `Option.getD 0` reproduces).
* `str.lower()`/`str.upper()` are `maleCrke`/`velikeCrke`; the Python
  substring test `needle in hay` is `vsebuje hay needle`.
-/

/-- Python `a or b` for a possibly-missing number: `None` and `0` are falsy. -/
def pyOr (a : Option ℚ) (b : ℚ) : ℚ :=
  match a with
  | some x => if x = 0 then b else x
  | none => b

/-- Python `a or b` for a possibly-missing natural number. -/
def pyOrN (a : Option ℕ) (b : ℕ) : ℕ :=
  match a with
  | some x => if x = 0 then b else x
  | none => b

/-- Python `a or b` where the fallback is itself possibly missing. -/
def pyOrOpt (a b : Option ℚ) : Option ℚ :=
  match a with
  | some x => if x = 0 then b else some x
  | none => b

/-- Python `str.lower()`. -/
def maleCrke (s : String) : String := String.mk (s.toList.map Char.toLower)

/-- Python `str.upper()`. -/
def velikeCrke (s : String) : String := String.mk (s.toList.map Char.toUpper)

/-- Python substring test `kaj in kje`. -/
def vsebuje (kje kaj : String) : Bool :=
  kje.toList.tails.any (fun t => kaj.toList.isPrefixOf t)

/-- Raw payload, one field per dictionary path read by the engine
(`podatki` in the source).  `markets`-suffixed fields live under the top
level `market_data` dict, `info`-suffixed ones under
`basic_info.market_data`. -/
structure Podatki where
  /-- `market_data.market_cap_rank` -/
  rank_markets : Option ℕ := none
  /-- `basic_info.market_data.market_cap_rank` -/
  rank_info : Option ℕ := none
  /-- `market_data.market_cap` -/
  mcap_markets : Option ℚ := none
  /-- `basic_info.market_data.market_cap.usd` -/
  mcap_info : Option ℚ := none
  /-- `market_data.total_volume` -/
  vol_markets : Option ℚ := none
  /-- `basic_info.market_data.total_volume.usd` -/
  vol_info : Option ℚ := none
  /-- age in years parsed from `basic_info.genesis_date`; `none` when the
  date is absent or unparseable -/
  starost_geneze : Option ℚ := none
  /-- `basic_info.links.repos_url.github` -/
  github_repoji : List String := []
  /-- `basic_info.links.blockchain_site` -/
  blockchain_site : List String := []
  /-- `basic_info.developer_data.stars` -/
  zvezdice : Option ℕ := none
  /-- `basic_info.developer_data.forks` -/
  forki : Option ℕ := none
  /-- `basic_info.developer_data.commit_count_4_weeks` -/
  commiti : Option ℕ := none
  /-- `basic_info.categories` -/
  kategorije : List String := []
  /-- `basic_info.market_data.max_supply` -/
  max_supply_info : Option ℚ := none
  /-- `market_data.max_supply` -/
  max_supply_markets : Option ℚ := none
  /-- `basic_info.market_data.circulating_supply` -/
  circ_info : Option ℚ := none
  /-- `market_data.circulating_supply` -/
  circ_markets : Option ℚ := none
  /-- `basic_info.market_data.ath_change_percentage.usd` -/
  ath_info : Option ℚ := none
  /-- `market_data.ath_change_percentage` -/
  ath_markets : Option ℚ := none
  /-- `market_data.price_change_percentage_7d_in_currency` -/
  sprememba_7d_markets : Option ℚ := none
  /-- `basic_info.market_data.price_change_percentage_7d` -/
  sprememba_7d_info : Option ℚ := none
  /-- `market_data.price_change_percentage_30d_in_currency` -/
  sprememba_30d_markets : Option ℚ := none
  /-- `basic_info.market_data.price_change_percentage_30d` -/
  sprememba_30d_info : Option ℚ := none
  /-- `basic_info.community_data.twitter_followers` -/
  twitter : Option ℕ := none
  /-- `basic_info.community_data.reddit_subscribers` -/
  reddit : Option ℕ := none
  /-- `basic_info.community_data.telegram_channel_user_count` -/
  telegram : Option ℕ := none
  /-- `basic_info.community_data.reddit_accounts_active_48h` -/
  reddit_aktivnost : Option ℕ := none
  /-- `basic_info.links.homepage` -/
  homepage : List String := []
  /-- `basic_info.links.whitepaper` -/
  whitepaper : Option String := none
  /-- `basic_info.links.chat_url` -/
  chat_url : List String := []
  /-- `basic_info.links.official_forum_url` -/
  forum_url : List String := []
  /-- `basic_info.description.en` (`""` when missing) -/
  opis_en : String := ""
  /-- `basic_info.name` -/
  ime : Option String := none
  /-- `basic_info.symbol` -/
  simbol : Option String := none
  /-- `basic_info.sentiment_votes_up_percentage` -/
  sentiment : Option ℚ := none
  /-- `coin_id` -/
  coin_id : String := ""
deriving DecidableEq

/-- `AnalizatorMetrik._dobi_rang`. -/
def dobi_rang (p : Podatki) : ℕ :=
  pyOrN p.rank_markets (pyOrN p.rank_info 9999)

/-- `AnalizatorMetrik._dobi_trzno_kap`. -/
def dobi_trzno_kap (p : Podatki) : ℚ :=
  pyOr p.mcap_markets (pyOr p.mcap_info 0)

/-- `AnalizatorMetrik._dobi_volumen`. -/
def dobi_volumen (p : Podatki) : ℚ :=
  pyOr p.vol_markets (pyOr p.vol_info 0)

/-- `AnalizatorMetrik._izracunaj_starost` (returns `0` when the genesis
date is absent or unparseable). -/
def izracunaj_starost (p : Podatki) : ℚ :=
  p.starost_geneze.getD 0

/-- Rank-based age fallback of `analiziraj_tehnicne`
(analizatorji.py lines 72-84). -/
def starost_iz_ranga_teh (rang : ℕ) : ℚ :=
  if rang ≤ 10 then 8.0
  else if rang ≤ 20 then 6.0
  else if rang ≤ 50 then 4.0
  else if rang ≤ 100 then 3.0
  else if rang ≤ 200 then 2.0
  else 1.0

/-- Rank-based age fallback of `analiziraj_ekonomske`
(analizatorji.py lines 239-249): note the missing 200 band. -/
def starost_iz_ranga_eko (rang : ℕ) : ℚ :=
  if rang ≤ 10 then 8.0
  else if rang ≤ 20 then 6.0
  else if rang ≤ 50 then 4.0
  else if rang ≤ 100 then 3.0
  else 2.0

/-- Rank-based age fallback of `analiziraj_socialne`
(analizatorji.py lines 430-440), textually identical to the economic one. -/
def starost_iz_ranga_soc (rang : ℕ) : ℚ :=
  if rang ≤ 10 then 8.0
  else if rang ≤ 20 then 6.0
  else if rang ≤ 50 then 4.0
  else if rang ≤ 100 then 3.0
  else 2.0

/-- Modelled from the spec: §4.1 describes one shared rank-band age
fallback (`rank≤10→8y, ≤20→6y, ≤50→4y, ≤100→3y, ≤200→2y, else→1y`)
claimed to be reused verbatim by all three analyzers. -/
def starost_iz_ranga_spec (rang : ℕ) : ℚ :=
  if rang ≤ 10 then 8.0
  else if rang ≤ 20 then 6.0
  else if rang ≤ 50 then 4.0
  else if rang ≤ 100 then 3.0
  else if rang ≤ 200 then 2.0
  else 1.0

/-- `models.StopnjaTveganja`. -/
inductive StopnjaTveganja where
  | ZELO_NIZKO
  | NIZKO
  | SREDNJE
  | VISOKO
  | ZELO_VISOKO
  | KRITICNO
deriving DecidableEq

/-- The `.value` string of each `StopnjaTveganja` member. -/
def StopnjaTveganja.value : StopnjaTveganja → String
  | .ZELO_NIZKO => "Very Low Risk"
  | .NIZKO => "Low Risk"
  | .SREDNJE => "Moderate Risk"
  | .VISOKO => "High Risk"
  | .ZELO_VISOKO => "Very High Risk"
  | .KRITICNO => "Critical Risk - Likely Scam"

/-- `models.TipPrevare`. -/
inductive TipPrevare where
  | PONZIJEVA_SHEMA
  | RUG_PULL
  | PUMP_AND_DUMP
  | ALGORITMICNA_NAPAKA
  | SUMLJIVA_PONZI
  | TVEGANJE_BORZE
  | HONEYPOT
  | NEZNANO
deriving DecidableEq

/-- The `.value` string of each `TipPrevare` member. -/
def TipPrevare.value : TipPrevare → String
  | .PONZIJEVA_SHEMA => "Ponzi Scheme"
  | .RUG_PULL => "Rug Pull"
  | .PUMP_AND_DUMP => "Pump and Dump"
  | .ALGORITMICNA_NAPAKA => "Algorithmic Failure"
  | .SUMLJIVA_PONZI => "Suspected Ponzi"
  | .TVEGANJE_BORZE => "Exchange Token Risk"
  | .HONEYPOT => "Honeypot"
  | .NEZNANO => "Unknown/Not Classified"

/-- Python `TipPrevare(s)`: enum lookup by value, `none` models the
`ValueError` branch. -/
def TipPrevare.poVrednosti (s : String) : Option TipPrevare :=
  if s = "Ponzi Scheme" then some .PONZIJEVA_SHEMA
  else if s = "Rug Pull" then some .RUG_PULL
  else if s = "Pump and Dump" then some .PUMP_AND_DUMP
  else if s = "Algorithmic Failure" then some .ALGORITMICNA_NAPAKA
  else if s = "Suspected Ponzi" then some .SUMLJIVA_PONZI
  else if s = "Exchange Token Risk" then some .TVEGANJE_BORZE
  else if s = "Honeypot" then some .HONEYPOT
  else if s = "Unknown/Not Classified" then some .NEZNANO
  else none

/-- `models.KategorijaProjekta`. -/
inductive KategorijaProjekta where
  | LAYER_1
  | KVALITETEN_TOKEN
  | PROBLEMATICEN
  | NEKATEGORIZIRAN
deriving DecidableEq

/-- The `.value` string of each `KategorijaProjekta` member. -/
def KategorijaProjekta.value : KategorijaProjekta → String
  | .LAYER_1 => "Layer 1 - Own Blockchain"
  | .KVALITETEN_TOKEN => "Quality Token - No Own Chain"
  | .PROBLEMATICEN => "Problematic/Scam Project"
  | .NEKATEGORIZIRAN => "Uncategorized"

/-- `models.TehnicneMetrike`. -/
structure TehnicneMetrike where
  dostopnost_kode : ℚ := 0.0
  kvaliteta_arhitekture : ℚ := 0.0
  decentralizacija : ℚ := 0.0
  varnostni_mehanizmi : ℚ := 0.0
  status_revizije : ℚ := 0.0
  tveganje_pogodbe : ℚ := 5.0
deriving DecidableEq

/-- `TehnicneMetrike.izracunaj_oceno`. -/
def TehnicneMetrike.izracunaj_oceno (m : TehnicneMetrike) : ℚ :=
  (m.dostopnost_kode * 0.15 +
   m.kvaliteta_arhitekture * 0.18 +
   m.decentralizacija * 0.22 +
   m.varnostni_mehanizmi * 0.22 +
   m.status_revizije * 0.13 +
   m.tveganje_pogodbe * 0.10) * 10

/-- `models.EkonomskeMetrike`. -/
structure EkonomskeMetrike where
  pravicnost_distribucije : ℚ := 0.0
  mehanizem_inflacije : ℚ := 0.0
  vesting_urnik : ℚ := 0.0
  koncentracija_lastnistva : ℚ := 0.0
  globina_likvidnosti : ℚ := 0.0
  indikatorji_manipulacije : ℚ := 0.0
  vzdrznost_tokenomike : ℚ := 5.0
deriving DecidableEq

/-- `EkonomskeMetrike.izracunaj_oceno`. -/
def EkonomskeMetrike.izracunaj_oceno (m : EkonomskeMetrike) : ℚ :=
  (m.pravicnost_distribucije * 0.18 +
   m.mehanizem_inflacije * 0.12 +
   m.vesting_urnik * 0.15 +
   m.koncentracija_lastnistva * 0.20 +
   m.globina_likvidnosti * 0.15 +
   m.indikatorji_manipulacije * 0.12 +
   m.vzdrznost_tokenomike * 0.08) * 10

/-- `models.SocialneMetrike`. -/
structure SocialneMetrike where
  transparentnost_ekipe : ℚ := 0.0
  izkusenost_ekipe : ℚ := 0.0
  kvaliteta_dokumentacije : ℚ := 0.0
  angaziranost_skupnosti : ℚ := 0.0
  pristop_marketinga : ℚ := 0.0
  prisotnost_na_omrezjih : ℚ := 0.0
  zdravje_skupnosti : ℚ := 5.0
deriving DecidableEq

/-- `SocialneMetrike.izracunaj_oceno`. -/
def SocialneMetrike.izracunaj_oceno (m : SocialneMetrike) : ℚ :=
  (m.transparentnost_ekipe * 0.22 +
   m.izkusenost_ekipe * 0.18 +
   m.kvaliteta_dokumentacije * 0.18 +
   m.angaziranost_skupnosti * 0.15 +
   m.pristop_marketinga * 0.10 +
   m.prisotnost_na_omrezjih * 0.08 +
   m.zdravje_skupnosti * 0.09) * 10

/-- Registry record of a known scam (one value of the
`known_scam_coins` JSON mapping in `baza_prevar.py`). -/
structure ZapisPrevare where
  name : Option String := none
  symbol : Option String := none
  score : Option ℚ := none
  grade : Option String := none
  scam_type : Option String := none
  red_flags : List String := []
  description : Option String := none
deriving DecidableEq

/-- `models.IndikatorjiPrevare`. -/
structure IndikatorjiPrevare where
  je_znana_prevara : Bool := false
  tip_prevare : TipPrevare := TipPrevare.NEZNANO
  verjetnost_prevare : ℚ := 0.0
  rdeci_zastavice : List String := []
  opozorila : List String := []
  podatki_znane_prevare : Option ZapisPrevare := none
deriving DecidableEq

/-- Code-availability band (`analiziraj_tehnicne`, "Dostopnost kode"). -/
def ocena_kode (github_repoji blockchain_site : List String) : ℚ :=
  if !github_repoji.isEmpty then 8.5
  else if !blockchain_site.isEmpty ∧ blockchain_site.any (fun s => s ≠ "") then 6.0
  else 4.0

/-- Architecture-quality band (`analiziraj_tehnicne`, "Kvaliteta
arhitekture"): GitHub metrics first, rank and age fallback otherwise. -/
def ocena_arhitekture (zvezdice forki commiti : ℕ) (rang : ℕ) (starost_let : ℚ) : ℚ :=
  if 50000 < zvezdice ∧ 20000 < forki then 9.5
  else if 30000 < zvezdice ∧ 10000 < forki then 9.0
  else if 15000 < zvezdice ∧ 5000 < forki then 8.5
  else if 5000 < zvezdice then 8.0
  else if 1000 < zvezdice then 7.5
  else if 500 < zvezdice ∨ 50 < commiti then 7.0
  else if 100 < zvezdice ∨ 20 < commiti then 6.0
  else if 0 < zvezdice ∨ 0 < commiti then 5.0
  else
    if rang ≤ 10 ∧ 5 < starost_let then 9.0
    else if rang ≤ 20 ∧ 4 < starost_let then 8.5
    else if rang ≤ 30 ∧ 3 < starost_let then 8.0
    else if rang ≤ 50 ∧ 2 < starost_let then 7.5
    else if rang ≤ 100 ∧ 1 < starost_let then 7.0
    else if rang ≤ 200 then 6.5
    else if rang ≤ 500 then 5.5
    else 4.0

/-- Decentralization band (`analiziraj_tehnicne`, "Decentralizacija"). -/
def ocena_decentralizacije (starost_let : ℚ) (rang : ℕ) : ℚ :=
  if 10 < starost_let ∧ rang ≤ 5 then 9.5
  else if 6 < starost_let ∧ rang ≤ 15 then 9.0
  else if 4 < starost_let ∧ rang ≤ 30 then 8.5
  else if 3 < starost_let ∧ rang ≤ 50 then 8.0
  else if 2 < starost_let ∧ rang ≤ 100 then 7.5
  else if 2 < starost_let then 7.0
  else if 1 < starost_let then 6.5
  else if rang ≤ 100 then 6.0
  else 5.0

/-- Security band (`analiziraj_tehnicne`, "Varnostni mehanizmi"). -/
def ocena_varnosti (rang : ℕ) : ℚ :=
  if rang ≤ 5 then 9.5
  else if rang ≤ 10 then 9.0
  else if rang ≤ 20 then 8.5
  else if rang ≤ 50 then 8.0
  else if rang ≤ 100 then 7.5
  else if rang ≤ 200 then 7.0
  else if rang ≤ 500 then 6.0
  else if rang ≤ 1000 then 5.0
  else 4.0

/-- Audit-status band (`analiziraj_tehnicne`, "Status revizije"). -/
def ocena_revizije (rang : ℕ) (starost_let : ℚ) : ℚ :=
  if rang ≤ 10 ∧ 5 < starost_let then 9.5
  else if rang ≤ 20 ∧ 3 < starost_let then 9.0
  else if rang ≤ 50 ∧ 2 < starost_let then 8.0
  else if rang ≤ 100 ∧ 1 < starost_let then 7.5
  else if rang ≤ 200 then 7.0
  else if rang ≤ 500 then 6.0
  else 5.0

/-- Smart-contract-risk band (`analiziraj_tehnicne`, "Tveganje pametne
pogodbe"). -/
def ocena_pogodbe (je_token : Bool) (rang : ℕ) (starost_let : ℚ) : ℚ :=
  if !je_token then 8.0
  else if rang ≤ 50 ∧ 3 < starost_let then 8.0
  else if rang ≤ 100 ∧ 2 < starost_let then 7.5
  else if rang ≤ 200 ∧ 1 < starost_let then 7.0
  else 6.0

/-- `AnalizatorMetrik.analiziraj_tehnicne` (the unused `indikatorji`
parameter of the Python method is dropped). -/
def analiziraj_tehnicne (podatki : Podatki) : TehnicneMetrike :=
  let rang := dobi_rang podatki
  let starost0 := izracunaj_starost podatki
  let starost_let := if starost0 = 0 then starost_iz_ranga_teh rang else starost0
  let je_token := podatki.kategorije.any (fun kat =>
    vsebuje (maleCrke kat) "token" || vsebuje (maleCrke kat) "erc" ||
    vsebuje (maleCrke kat) "bep")
  { dostopnost_kode := ocena_kode podatki.github_repoji podatki.blockchain_site
    kvaliteta_arhitekture :=
      ocena_arhitekture (pyOrN podatki.zvezdice 0) (pyOrN podatki.forki 0)
        (pyOrN podatki.commiti 0) rang starost_let
    decentralizacija := ocena_decentralizacije starost_let rang
    varnostni_mehanizmi := ocena_varnosti rang
    status_revizije := ocena_revizije rang starost_let
    tveganje_pogodbe := ocena_pogodbe je_token rang starost_let }

/-- Volume/market-cap ratio ladder of `ocena_distribucije` (the value of
`ocena_distribucije` before the established-project floor). -/
def ocena_distribucije_osnovna (razmerje_volumna : ℚ) : ℚ :=
  if 15 < razmerje_volumna then 9.5
  else if 8 < razmerje_volumna then 9.0
  else if 4 < razmerje_volumna then 8.5
  else if 2 < razmerje_volumna then 8.0
  else if 1 < razmerje_volumna then 7.5
  else if 0.5 < razmerje_volumna then 7.0
  else if 0.1 < razmerje_volumna then 6.0
  else 5.0

/-- Distribution-fairness band with the established-project floor
(`analiziraj_ekonomske`, "Pravicnost distribucije"). -/
def ocena_distribucije (razmerje_volumna : ℚ) (rang : ℕ) (starost_let : ℚ) : ℚ :=
  let osnovna := ocena_distribucije_osnovna razmerje_volumna
  if rang ≤ 10 ∧ 5 < starost_let then max osnovna 9.0
  else if rang ≤ 30 ∧ 3 < starost_let then max osnovna 8.5
  else if rang ≤ 50 then max osnovna 8.0
  else if rang ≤ 100 then max osnovna 7.5
  else osnovna

/-- Inflation-mechanism band (`analiziraj_ekonomske`, "Mehanizem
inflacije"). -/
def ocena_inflacije (max_zaloga : Option ℚ) (v_obtoku : ℚ) : ℚ :=
  match max_zaloga with
  | some mz =>
    if mz ≠ 0 ∧ v_obtoku ≠ 0 ∧ 0 < mz then
      let razmerje_zaloge := v_obtoku / mz
      if 0.9 < razmerje_zaloge then 9.0
      else if 0.75 < razmerje_zaloge then 8.0
      else if 0.5 < razmerje_zaloge then 7.0
      else if 0.3 < razmerje_zaloge then 6.0
      else 5.0
    else 6.5
  | none => 6.5

/-- Vesting band (`analiziraj_ekonomske`, "Vesting urnik"). -/
def ocena_vestinga (starost_let : ℚ) : ℚ :=
  if 10 < starost_let then 9.5
  else if 7 < starost_let then 9.0
  else if 5 < starost_let then 8.5
  else if 3 < starost_let then 8.0
  else if 2 < starost_let then 7.5
  else if 1 < starost_let then 7.0
  else 6.0

/-- ATH-drawdown ladder of `ocena_koncentracije` (the value before the
established-project floor). -/
def ocena_koncentracije_osnovna (ath_sprememba : ℚ) : ℚ :=
  if -20 < ath_sprememba then 9.0
  else if -40 < ath_sprememba then 8.5
  else if -60 < ath_sprememba then 8.0
  else if -75 < ath_sprememba then 7.5
  else if -85 < ath_sprememba then 7.0
  else if -92 < ath_sprememba then 6.0
  else 5.0

/-- Ownership-concentration band with the established-project floor
(`analiziraj_ekonomske`, "Koncentracija lastnistva"). -/
def ocena_koncentracije (ath_sprememba : ℚ) (rang : ℕ) (starost_let : ℚ) : ℚ :=
  let osnovna := ocena_koncentracije_osnovna ath_sprememba
  if rang ≤ 10 ∧ 5 < starost_let then max osnovna 8.5
  else if rang ≤ 30 ∧ 3 < starost_let then max osnovna 8.0
  else if rang ≤ 50 then max osnovna 7.5
  else if rang ≤ 100 then max osnovna 7.0
  else osnovna

/-- Liquidity-depth band (`analiziraj_ekonomske`, "Globina
likvidnosti"). -/
def ocena_likvidnosti (volumen : ℚ) : ℚ :=
  if 2000000000 < volumen then 9.5
  else if 1000000000 < volumen then 9.0
  else if 500000000 < volumen then 8.5
  else if 200000000 < volumen then 8.0
  else if 100000000 < volumen then 7.5
  else if 50000000 < volumen then 7.0
  else if 10000000 < volumen then 6.5
  else if 1000000 < volumen then 6.0
  else if 100000 < volumen then 5.0
  else 4.0

/-- Manipulation-indicators band (`analiziraj_ekonomske`, "Indikatorji
manipulacije"). -/
def ocena_manipulacije (volatilnost : ℚ) : ℚ :=
  if volatilnost < 5 then 9.0
  else if volatilnost < 10 then 8.5
  else if volatilnost < 20 then 8.0
  else if volatilnost < 35 then 7.0
  else if volatilnost < 50 then 6.0
  else 5.0

/-- Tokenomics-sustainability band (`analiziraj_ekonomske`, "Vzdrznost
tokenomike"). -/
def ocena_vzdrznosti (rang : ℕ) (starost_let : ℚ) : ℚ :=
  if rang ≤ 10 ∧ 5 < starost_let then 9.5
  else if rang ≤ 30 ∧ 3 < starost_let then 9.0
  else if rang ≤ 50 ∧ 2 < starost_let then 8.5
  else if rang ≤ 100 then 8.0
  else if rang ≤ 200 then 7.5
  else 7.0

/-- `AnalizatorMetrik.analiziraj_ekonomske`. -/
def analiziraj_ekonomske (podatki : Podatki) : EkonomskeMetrike :=
  let rang := dobi_rang podatki
  let trzna_kap := dobi_trzno_kap podatki
  let volumen := dobi_volumen podatki
  let starost0 := izracunaj_starost podatki
  let starost_let := if starost0 = 0 then starost_iz_ranga_eko rang else starost0
  let razmerje_volumna := if 0 < trzna_kap then volumen / trzna_kap * 100 else 0
  let max_zaloga := pyOrOpt podatki.max_supply_info podatki.max_supply_markets
  let v_obtoku := pyOr podatki.circ_info (pyOr podatki.circ_markets 0)
  let ath_sprememba := pyOr podatki.ath_info (pyOr podatki.ath_markets (-50))
  let sprememba_7d := pyOr podatki.sprememba_7d_markets (pyOr podatki.sprememba_7d_info 0)
  let sprememba_30d := pyOr podatki.sprememba_30d_markets (pyOr podatki.sprememba_30d_info 0)
  let volatilnost := (|sprememba_7d| + |sprememba_30d|) / 2
  { pravicnost_distribucije := ocena_distribucije razmerje_volumna rang starost_let
    mehanizem_inflacije := ocena_inflacije max_zaloga v_obtoku
    vesting_urnik := ocena_vestinga starost_let
    koncentracija_lastnistva := ocena_koncentracije ath_sprememba rang starost_let
    globina_likvidnosti := ocena_likvidnosti volumen
    indikatorji_manipulacije := ocena_manipulacije volatilnost
    vzdrznost_tokenomike := ocena_vzdrznosti rang starost_let }

/-- Channel-count ladder of `ocena_transparentnosti`
(`analiziraj_socialne`, "Transparentnost ekipe"). -/
def ocena_transparentnosti_osnovna (stevilo_kanalov : ℕ) : ℚ :=
  if 4 ≤ stevilo_kanalov then 9.0
  else if 3 ≤ stevilo_kanalov then 8.5
  else if 2 ≤ stevilo_kanalov then 7.5
  else if 1 ≤ stevilo_kanalov then 6.0
  else 4.0

/-- Team-transparency band with its established-project floor applied. -/
def ocena_transparentnosti (stevilo_kanalov : ℕ) (rang : ℕ) (starost_let : ℚ) : ℚ :=
  let osnovna := ocena_transparentnosti_osnovna stevilo_kanalov
  if rang ≤ 30 ∧ 3 < starost_let then max osnovna 8.5 else osnovna

/-- Team-experience band (`analiziraj_socialne`, "Izkusenost ekipe"). -/
def ocena_izkusenj (rang : ℕ) (starost_let : ℚ) : ℚ :=
  if rang ≤ 10 ∧ 5 < starost_let then 9.5
  else if rang ≤ 20 ∧ 4 < starost_let then 9.0
  else if rang ≤ 30 ∧ 3 < starost_let then 8.5
  else if rang ≤ 50 ∧ 2 < starost_let then 8.0
  else if rang ≤ 100 then 7.5
  else if rang ≤ 200 then 7.0
  else 6.0

/-- Community-engagement band with rank fallback (`analiziraj_socialne`,
"Angaziranost skupnosti"). -/
def ocena_angaziranosti (skupaj_skupnost : ℕ) (rang : ℕ) : ℚ :=
  if 5000000 < skupaj_skupnost then 9.5
  else if 2000000 < skupaj_skupnost then 9.0
  else if 1000000 < skupaj_skupnost then 8.5
  else if 500000 < skupaj_skupnost then 8.0
  else if 100000 < skupaj_skupnost then 7.5
  else if 50000 < skupaj_skupnost then 7.0
  else if 10000 < skupaj_skupnost then 6.0
  else
    if rang ≤ 10 then 9.0
    else if rang ≤ 30 then 8.5
    else if rang ≤ 50 then 8.0
    else if rang ≤ 100 then 7.5
    else 6.5

/-- Documentation-quality band (`analiziraj_socialne`, "Kvaliteta
dokumentacije"). -/
def ocena_dokumentacije (ima_whitepaper ima_opis : Bool) (dolzina_opisa : ℕ) : ℚ :=
  if ima_whitepaper ∧ 1000 < dolzina_opisa then 9.0
  else if ima_whitepaper ∧ 500 < dolzina_opisa then 8.5
  else if 1000 < dolzina_opisa then 8.0
  else if 500 < dolzina_opisa then 7.5
  else if 200 < dolzina_opisa then 7.0
  else if ima_opis then 6.0
  else 5.0

/-- Marketing-approach band (`analiziraj_socialne`, "Pristop
marketinga"). -/
def ocena_marketinga (sentiment : ℚ) : ℚ :=
  if 80 < sentiment then 9.0
  else if 65 < sentiment then 8.0
  else if 50 < sentiment then 7.0
  else if 40 < sentiment then 6.0
  else 5.0

/-- Network-presence band with rank fallback (`analiziraj_socialne`,
"Prisotnost na omrezjih"). -/
def ocena_prisotnosti (twitter reddit : ℕ) (rang : ℕ) : ℚ :=
  if 1000000 < twitter ∧ 100000 < reddit then 9.5
  else if 500000 < twitter ∨ 100000 < reddit then 9.0
  else if 200000 < twitter ∨ 50000 < reddit then 8.5
  else if 100000 < twitter ∨ 20000 < reddit then 8.0
  else if 50000 < twitter ∨ 10000 < reddit then 7.5
  else if 10000 < twitter ∨ 5000 < reddit then 7.0
  else
    if rang ≤ 30 then 8.0
    else if rang ≤ 100 then 7.5
    else 6.5

/-- Community-health band with rank fallback (`analiziraj_socialne`,
"Zdravje skupnosti"). -/
def ocena_zdravja (reddit_aktivnost : ℕ) (rang : ℕ) : ℚ :=
  if 10000 < reddit_aktivnost then 9.0
  else if 5000 < reddit_aktivnost then 8.5
  else if 2000 < reddit_aktivnost then 8.0
  else if 1000 < reddit_aktivnost then 7.5
  else if 500 < reddit_aktivnost then 7.0
  else if 100 < reddit_aktivnost then 6.5
  else
    if rang ≤ 20 then 8.5
    else if rang ≤ 50 then 8.0
    else if rang ≤ 100 then 7.5
    else 7.0

/-- First element of a Python link list is truthy
(`bool(lst[0]) if lst else False`). -/
def prvaPovezava (l : List String) : Bool :=
  match l with
  | [] => false
  | h :: _ => h ≠ ""

/-- `AnalizatorMetrik.analiziraj_socialne`. -/
def analiziraj_socialne (podatki : Podatki) : SocialneMetrike :=
  let rang := dobi_rang podatki
  let sentiment := pyOr podatki.sentiment 50
  let starost0 := izracunaj_starost podatki
  let starost_let := if starost0 = 0 then starost_iz_ranga_soc rang else starost0
  let twitter := pyOrN podatki.twitter 0
  let reddit := pyOrN podatki.reddit 0
  let telegram := pyOrN podatki.telegram 0
  let skupaj_skupnost := twitter + reddit + telegram
  let ima_domaco := prvaPovezava podatki.homepage
  let ima_whitepaper := match podatki.whitepaper with
    | none => false
    | some s => s ≠ ""
  let ima_chat := prvaPovezava podatki.chat_url
  let ima_forum := prvaPovezava podatki.forum_url
  let stevilo_kanalov :=
    (if ima_domaco then 1 else 0) + (if ima_whitepaper then 1 else 0) +
    (if ima_chat then 1 else 0) + (if ima_forum then 1 else 0)
  let ima_opis := podatki.opis_en ≠ ""
  let dolzina_opisa := podatki.opis_en.length
  { transparentnost_ekipe := ocena_transparentnosti stevilo_kanalov rang starost_let
    izkusenost_ekipe := ocena_izkusenj rang starost_let
    kvaliteta_dokumentacije := ocena_dokumentacije ima_whitepaper ima_opis dolzina_opisa
    angaziranost_skupnosti := ocena_angaziranosti skupaj_skupnost rang
    pristop_marketinga := ocena_marketinga sentiment
    prisotnost_na_omrezjih := ocena_prisotnosti twitter reddit rang
    zdravje_skupnosti := ocena_zdravja (pyOrN podatki.reddit_aktivnost 0) rang }

/-- Fixed hype-token list of the dynamic fraud heuristic
(`sumljiva_imena`). -/
def sumljiva_imena : List String :=
  ["safe", "moon", "elon", "doge", "shiba", "inu", "baby", "mini",
   "floki", "100x", "1000x", "rocket", "gem"]

/-- Fixed suspicious-phrase list of the dynamic fraud heuristic
(`rdece_fraze`). -/
def rdece_fraze : List String :=
  ["guaranteed return", "risk free", "100x", "1000x", "next bitcoin",
   "get rich", "passive income", "dont miss", "don\x27t miss", "limited time"]

/-- `AnalizatorMetrik.analiziraj_prevare`.  The scam registry is the
abstract lookup `baza` (the `je_znana_prevara` collaborator of
`baza_prevar.py`): `some` is a hit together with the matched record. -/
def analiziraj_prevare (baza : String → Option ZapisPrevare) (podatki : Podatki)
    (ime_kovanca : String) : IndikatorjiPrevare :=
  match baza ime_kovanca with
  | some podatki_prevare =>
    { je_znana_prevara := true
      podatki_znane_prevare := some podatki_prevare
      verjetnost_prevare := 1.0
      rdeci_zastavice := podatki_prevare.red_flags
      tip_prevare :=
        (TipPrevare.poVrednosti
          ((velikeCrke (podatki_prevare.scam_type.getD "unknown")).replace "_" " ")).getD
          TipPrevare.NEZNANO
      opozorila := [] }
  | none =>
  match baza podatki.coin_id with
  | some podatki_prevare =>
    { je_znana_prevara := true
      podatki_znane_prevare := some podatki_prevare
      verjetnost_prevare := 1.0
      rdeci_zastavice := podatki_prevare.red_flags
      tip_prevare := TipPrevare.NEZNANO
      opozorila := [] }
  | none =>
    let rang := dobi_rang podatki
    let trzna_kap := dobi_trzno_kap podatki
    let volumen := dobi_volumen podatki
    let besedilo := maleCrke podatki.opis_en
    let ime := maleCrke (podatki.ime.getD "")
    let po_imenih := sumljiva_imena.foldl
      (fun (acc : ℕ × List String) vzorec =>
        if vsebuje ime vzorec then
          (acc.1 + 5, acc.2 ++ [s!"Ime vsebuje hype besedo: \x27{vzorec}\x27"])
        else acc)
      (0, [])
    let po_frazah := rdece_fraze.foldl
      (fun (acc : ℕ × List String) fraza =>
        if vsebuje besedilo fraza then
          (acc.1 + 10, acc.2 ++ [s!"Opis vsebuje rdeco zastavo: \x27{fraza}\x27"])
        else acc)
      (po_imenih.1, [])
    let ath_sprememba := pyOr podatki.ath_info (-50)
    let po_kapitalizaciji :=
      if 200 < rang then
        if trzna_kap < 1000000 ∧ 0 < trzna_kap then po_frazah.1 + 15
        else if trzna_kap < 10000000 ∧ 0 < trzna_kap then po_frazah.1 + 8
        else po_frazah.1
      else po_frazah.1
    let po_ath :=
      if 100 < rang then
        if ath_sprememba < -99 then
          (po_kapitalizaciji + 25, po_frazah.2 ++ ["Cena padla >99% od ATH"])
        else if ath_sprememba < -95 then (po_kapitalizaciji + 15, po_frazah.2)
        else (po_kapitalizaciji, po_frazah.2)
      else (po_kapitalizaciji, po_frazah.2)
    let po_volumnu :=
      if 100 < rang then
        if volumen < 1000 ∧ 0 < trzna_kap then
          (po_ath.1 + 20, po_ath.2 ++ ["Ekstremno nizek volumen trgovanja"])
        else if volumen < 10000 ∧ 0 < trzna_kap then (po_ath.1 + 10, po_ath.2)
        else po_ath
      else po_ath
    let tocke_prevare := po_volumnu.1
    let verjetnost := min ((tocke_prevare : ℚ) / 100) 0.95
    let tip :=
      if 0.6 < verjetnost then
        if ath_sprememba < -99 ∧ volumen < 10000 then TipPrevare.RUG_PULL
        else if vsebuje besedilo "passive income" ∨ vsebuje besedilo "guaranteed" then
          TipPrevare.SUMLJIVA_PONZI
        else TipPrevare.PUMP_AND_DUMP
      else TipPrevare.NEZNANO
    { je_znana_prevara := false
      tip_prevare := tip
      verjetnost_prevare := verjetnost
      rdeci_zastavice := po_volumnu.2
      opozorila := po_imenih.2
      podatki_znane_prevare := none }

/-- Axis weights of `KriptoKlasifikator`. -/
def UTEZ_TEHNICNE : ℚ := 0.40

/-- Axis weight of the economic axis. -/
def UTEZ_EKONOMSKE : ℚ := 0.35

/-- Axis weight of the social axis. -/
def UTEZ_SOCIALNE : ℚ := 0.25

/-- `KriptoKlasifikator._doloci_stopnjo`. -/
def doloci_stopnjo (ocena : ℚ) (indikatorji : IndikatorjiPrevare) : StopnjaTveganja :=
  if indikatorji.je_znana_prevara ∨ 0.8 < indikatorji.verjetnost_prevare then
    StopnjaTveganja.KRITICNO
  else if 85 ≤ ocena then StopnjaTveganja.ZELO_NIZKO
  else if 70 ≤ ocena then StopnjaTveganja.NIZKO
  else if 55 ≤ ocena then StopnjaTveganja.SREDNJE
  else if 40 ≤ ocena then StopnjaTveganja.VISOKO
  else if 25 ≤ ocena then StopnjaTveganja.ZELO_VISOKO
  else StopnjaTveganja.KRITICNO

/-- `KriptoKlasifikator._doloci_kategorijo` (rank fallback default here
is `10000`, unlike the analyzers' `9999`). -/
def doloci_kategorijo (podatki : Podatki) (ocena : ℚ) : KategorijaProjekta :=
  let rang := pyOrN podatki.rank_markets (pyOrN podatki.rank_info 10000)
  let je_layer1 := podatki.kategorije.any (fun kat =>
    vsebuje (maleCrke kat) "layer 1" ||
    vsebuje (maleCrke kat) "layer 0" ||
    vsebuje (maleCrke kat) "layer-1" ||
    vsebuje (maleCrke kat) "layer-0" ||
    vsebuje (maleCrke kat) "smart contract platform" ||
    vsebuje (maleCrke kat) "proof of stake" ||
    vsebuje (maleCrke kat) "proof of work")
  let ima_omrezje := podatki.kategorije.any (fun kat =>
    vsebuje (maleCrke kat) "blockchain" ||
    vsebuje (maleCrke kat) "protocol" ||
    vsebuje (maleCrke kat) "infrastructure" ||
    vsebuje (maleCrke kat) "ecosystem")
  if je_layer1 then KategorijaProjekta.LAYER_1
  else if ima_omrezje ∧ rang ≤ 100 ∧ 55 ≤ ocena then KategorijaProjekta.LAYER_1
  else if 50 ≤ ocena then KategorijaProjekta.KVALITETEN_TOKEN
  else KategorijaProjekta.PROBLEMATICEN

/-- `KriptoKlasifikator._doloci_crko`. -/
def doloci_crko (ocena : ℚ) : String :=
  if 93 ≤ ocena then "A+"
  else if 85 ≤ ocena then "A"
  else if 80 ≤ ocena then "A-"
  else if 75 ≤ ocena then "B+"
  else if 70 ≤ ocena then "B"
  else if 65 ≤ ocena then "B-"
  else if 60 ≤ ocena then "C+"
  else if 55 ≤ ocena then "C"
  else if 50 ≤ ocena then "C-"
  else if 45 ≤ ocena then "D+"
  else if 40 ≤ ocena then "D"
  else if 35 ≤ ocena then "D-"
  else "F"

/-- Known-scam report (the dictionary built by
`KriptoKlasifikator._ustvari_porocilo_prevare`; the `indikatorji` the
classifier assembled are carried along so that the fraud fields stay
observable). -/
structure PorociloPrevare where
  ime : String
  simbol : String
  koncna_ocena : ℚ
  ocena_crka : String
  stopnja_tveganja : String
  kategorija : String
  je_potrjena_prevara : Bool
  tip_prevare : String
  rdeci_zastavice : List String
  opis_prevare : String
  opozorila : List String
  indikatorji : IndikatorjiPrevare
deriving DecidableEq

/-- Ordinary analysis report (the dictionary built at the end of
`KriptoKlasifikator.klasificiraj`; `koncna_ocena` and the axis scores are
kept unrounded — the CLI rounds them to two decimals for display only). -/
structure Porocilo where
  ime : String
  simbol : String
  koncna_ocena : ℚ
  ocena_crka : String
  stopnja_tveganja : String
  kategorija : String
  tehnicna_ocena : ℚ
  ekonomska_ocena : ℚ
  socialna_ocena : ℚ
  tehnicne_metrike : TehnicneMetrike
  ekonomske_metrike : EkonomskeMetrike
  socialne_metrike : SocialneMetrike
  verjetnost_prevare : ℚ
  indikatorji : IndikatorjiPrevare
deriving DecidableEq

/-- A classification outcome: known-scam report or ordinary analysis. -/
inductive Rezultat where
  | prevara (r : PorociloPrevare)
  | analiza (r : Porocilo)
deriving DecidableEq

/-- `KriptoKlasifikator._ustvari_porocilo_prevare`. -/
def ustvari_porocilo_prevare (ime simbol : String)
    (indikatorji : IndikatorjiPrevare) : PorociloPrevare :=
  let podatki_prevare := indikatorji.podatki_znane_prevare.getD {}
  { ime := ime
    simbol := simbol
    koncna_ocena := podatki_prevare.score.getD 0
    ocena_crka := podatki_prevare.grade.getD "F"
    stopnja_tveganja := "CRITICAL"
    kategorija := "KNOWN_SCAM"
    je_potrjena_prevara := true
    tip_prevare := podatki_prevare.scam_type.getD "Unknown"
    rdeci_zastavice := podatki_prevare.red_flags
    opis_prevare := podatki_prevare.description.getD ""
    opozorila := ["OPOZORILO: Ta projekt je potrjena prevara. Izogibajte se!"]
    indikatorji := indikatorji }

/-- The non-scam tail of `KriptoKlasifikator.klasificiraj` (lines
87-142): the three analyses, the weighted final score, the fraud penalty
and the derived labels. -/
def ustvari_analizo (podatki : Podatki) (ime simbol : String)
    (indikatorji : IndikatorjiPrevare) : Porocilo :=
  let tehnicne := analiziraj_tehnicne podatki
  let ekonomske := analiziraj_ekonomske podatki
  let socialne := analiziraj_socialne podatki
  let ocena_teh := tehnicne.izracunaj_oceno
  let ocena_eko := ekonomske.izracunaj_oceno
  let ocena_soc := socialne.izracunaj_oceno
  let surova :=
    ocena_teh * UTEZ_TEHNICNE + ocena_eko * UTEZ_EKONOMSKE + ocena_soc * UTEZ_SOCIALNE
  let koncna :=
    if 0 < indikatorji.verjetnost_prevare then
      surova * (1 - indikatorji.verjetnost_prevare * 0.5)
    else surova
  { ime := ime
    simbol := simbol
    koncna_ocena := koncna
    ocena_crka := doloci_crko koncna
    stopnja_tveganja := (doloci_stopnjo koncna indikatorji).value
    kategorija := (doloci_kategorijo podatki koncna).value
    tehnicna_ocena := ocena_teh
    ekonomska_ocena := ocena_eko
    socialna_ocena := ocena_soc
    tehnicne_metrike := tehnicne
    ekonomske_metrike := ekonomske
    socialne_metrike := socialne
    verjetnost_prevare := indikatorji.verjetnost_prevare
    indikatorji := indikatorji }

/-- `KriptoKlasifikator.klasificiraj`.  The two excluded collaborators
are parameters: `baza` is the scam-registry lookup and `pridobi` the
CoinGecko client (`none` models a coin the provider cannot resolve, which
the Python code turns into a raised `ValueError`, here `Except.error`). -/
def klasificiraj (baza : String → Option ZapisPrevare)
    (pridobi : String → Option Podatki) (identifikator : String) :
    Except String Rezultat :=
  match baza identifikator with
  | some podatki_prevare =>
    let ime := podatki_prevare.name.getD identifikator
    let simbol := velikeCrke (podatki_prevare.symbol.getD "???")
    let indikatorji : IndikatorjiPrevare :=
      { je_znana_prevara := true
        podatki_znane_prevare := some podatki_prevare
        verjetnost_prevare := 1.0
        rdeci_zastavice := podatki_prevare.red_flags }
    Except.ok (Rezultat.prevara (ustvari_porocilo_prevare ime simbol indikatorji))
  | none =>
  match pridobi identifikator with
  | none => Except.error s!"Kovanec \x27{identifikator}\x27 ni najden na CoinGecko"
  | some podatki =>
    let ime := podatki.ime.getD identifikator
    let simbol := velikeCrke (podatki.simbol.getD "???")
    let indikatorji := analiziraj_prevare baza podatki ime
    if indikatorji.je_znana_prevara then
      Except.ok (Rezultat.prevara (ustvari_porocilo_prevare ime simbol indikatorji))
    else
      Except.ok (Rezultat.analiza (ustvari_analizo podatki ime simbol indikatorji))

/-- One entry of the list returned by `batch_analiziraj`: either a
classification result or the error dictionary `{'ime': ..., 'napaka': ...}`. -/
inductive BatchVnos where
  | uspeh (r : Rezultat)
  | napaka (ime napaka : String)
deriving DecidableEq

/-- `KriptoKlasifikator.batch_analiziraj`: classify each identifier in
turn, catching per-item failures as error records (`klasif` abstracts the
`self.klasificiraj` call, progress printing is dropped). -/
def batch_analiziraj (klasif : String → Except String Rezultat) :
    List String → List BatchVnos
  | [] => []
  | ident :: preostali =>
    (match klasif ident with
     | Except.ok rezultat => BatchVnos.uspeh rezultat
     | Except.error e => BatchVnos.napaka ident e) :: batch_analiziraj klasif preostali

/-- All six technical sub-scores lie in `[0, 10]`. -/
def TehnicneMetrike.v_mejah (m : TehnicneMetrike) : Prop :=
  (0 ≤ m.dostopnost_kode ∧ m.dostopnost_kode ≤ 10) ∧
  (0 ≤ m.kvaliteta_arhitekture ∧ m.kvaliteta_arhitekture ≤ 10) ∧
  (0 ≤ m.decentralizacija ∧ m.decentralizacija ≤ 10) ∧
  (0 ≤ m.varnostni_mehanizmi ∧ m.varnostni_mehanizmi ≤ 10) ∧
  (0 ≤ m.status_revizije ∧ m.status_revizije ≤ 10) ∧
  (0 ≤ m.tveganje_pogodbe ∧ m.tveganje_pogodbe ≤ 10)

/-- All seven economic sub-scores lie in `[0, 10]`. -/
def EkonomskeMetrike.v_mejah (m : EkonomskeMetrike) : Prop :=
  (0 ≤ m.pravicnost_distribucije ∧ m.pravicnost_distribucije ≤ 10) ∧
  (0 ≤ m.mehanizem_inflacije ∧ m.mehanizem_inflacije ≤ 10) ∧
  (0 ≤ m.vesting_urnik ∧ m.vesting_urnik ≤ 10) ∧
  (0 ≤ m.koncentracija_lastnistva ∧ m.koncentracija_lastnistva ≤ 10) ∧
  (0 ≤ m.globina_likvidnosti ∧ m.globina_likvidnosti ≤ 10) ∧
  (0 ≤ m.indikatorji_manipulacije ∧ m.indikatorji_manipulacije ≤ 10) ∧
  (0 ≤ m.vzdrznost_tokenomike ∧ m.vzdrznost_tokenomike ≤ 10)

/-- All seven social sub-scores lie in `[0, 10]`. -/
def SocialneMetrike.v_mejah (m : SocialneMetrike) : Prop :=
  (0 ≤ m.transparentnost_ekipe ∧ m.transparentnost_ekipe ≤ 10) ∧
  (0 ≤ m.izkusenost_ekipe ∧ m.izkusenost_ekipe ≤ 10) ∧
  (0 ≤ m.kvaliteta_dokumentacije ∧ m.kvaliteta_dokumentacije ≤ 10) ∧
  (0 ≤ m.angaziranost_skupnosti ∧ m.angaziranost_skupnosti ≤ 10) ∧
  (0 ≤ m.pristop_marketinga ∧ m.pristop_marketinga ≤ 10) ∧
  (0 ≤ m.prisotnost_na_omrezjih ∧ m.prisotnost_na_omrezjih ≤ 10) ∧
  (0 ≤ m.zdravje_skupnosti ∧ m.zdravje_skupnosti ≤ 10)

/-- Risk-tier string of a classification outcome (present in both report
shapes). -/
def rezultatStopnja : Except String Rezultat → Option String
  | Except.ok (Rezultat.prevara r) => some r.stopnja_tveganja
  | Except.ok (Rezultat.analiza r) => some r.stopnja_tveganja
  | Except.error _ => none

/-- Fraud probability carried by a classification outcome. -/
def rezultatVerjetnost : Except String Rezultat → Option ℚ
  | Except.ok (Rezultat.prevara r) => some r.indikatorji.verjetnost_prevare
  | Except.ok (Rezultat.analiza r) => some r.indikatorji.verjetnost_prevare
  | Except.error _ => none

/-- Known-scam flag carried by a classification outcome. -/
def rezultatZnana : Except String Rezultat → Option Bool
  | Except.ok (Rezultat.prevara r) => some r.indikatorji.je_znana_prevara
  | Except.ok (Rezultat.analiza r) => some r.indikatorji.je_znana_prevara
  | Except.error _ => none

/-- Spec §8 Scenario C payload: rank 5000, market cap $50,000, 24h volume
$200, description containing "guaranteed return", ATH change −99.5 %. -/
def pScenarijC : Podatki :=
  { rank_markets := some 5000
    mcap_markets := some 50000
    vol_markets := some 200
    ath_info := some (-99.5)
    opis_en := "Guaranteed return"
    ime := some "testcoin" }

/-- A registry record of the `rug_pull` type (spec §8 Scenario B). -/
def zapisSquid : ZapisPrevare :=
  { name := some "Squid Game"
    symbol := some "squid"
    scam_type := some "rug_pull"
    score := some 2
    grade := some "F"
    red_flags := ["no sells"]
    description := some "exit scam" }

/-- A registry containing exactly the `squid` record. -/
def bazaSquid : String → Option ZapisPrevare :=
  fun s => if s = "squid" then some zapisSquid else none

/-- The empty registry. -/
def bazaPrazna : String → Option ZapisPrevare := fun _ => none

/-- A provider that resolves every identifier to the empty payload. -/
def pridobiPrazno : String → Option Podatki := fun _ => some {}

/-- The ordinary report `klasificiraj bazaPrazna pridobiPrazno "x"`
produces (named so that witnesses can state closed facts about it). -/
def porociloPrazno : Porocilo :=
  ustvari_analizo {} "x" (velikeCrke "???")
    (analiziraj_prevare bazaPrazna {} "x")

/-- A payload whose only resolvable fact is rank 15 (spec §8 Scenario D:
missing genesis date, rank 15). -/
def pRang15 : Podatki := { rank_markets := some 15 }

lemma konst_meje {a : ℚ} (h1 : 0 ≤ a) (h2 : a ≤ 10) : 0 ≤ a ∧ a ≤ 10 := ⟨h1, h2⟩

lemma ite_meje10 {c : Prop} [Decidable c] {a b : ℚ}
    (ha : 0 ≤ a ∧ a ≤ 10) (hb : 0 ≤ b ∧ b ≤ 10) :
    0 ≤ (if c then a else b) ∧ (if c then a else b) ≤ 10 := by
  split_ifs <;> assumption

lemma max_meje {a k : ℚ} (ha : 0 ≤ a ∧ a ≤ 10) (h1 : 0 ≤ k) (h2 : k ≤ 10) :
    0 ≤ max a k ∧ max a k ≤ 10 :=
  ⟨le_max_of_le_right h1, max_le ha.2 h2⟩

lemma ite_le {c : Prop} [Decidable c] {a b m : ℚ} (ha : a ≤ m) (hb : b ≤ m) :
    (if c then a else b) ≤ m := by
  split_ifs <;> assumption

lemma ocena_kode_meje (g b : List String) : 0 ≤ ocena_kode g b ∧ ocena_kode g b ≤ 10 := by
  unfold ocena_kode
  refine ite_meje10 (konst_meje (by norm_num) (by norm_num)) ?_
  exact ite_meje10 (konst_meje (by norm_num) (by norm_num))
    (konst_meje (by norm_num) (by norm_num))

lemma ocena_arhitekture_meje (z f c rang : ℕ) (s : ℚ) :
    0 ≤ ocena_arhitekture z f c rang s ∧ ocena_arhitekture z f c rang s ≤ 10 := by
  unfold ocena_arhitekture
  refine ite_meje10 (konst_meje (by norm_num) (by norm_num)) ?_
  refine ite_meje10 (konst_meje (by norm_num) (by norm_num)) ?_
  refine ite_meje10 (konst_meje (by norm_num) (by norm_num)) ?_
  refine ite_meje10 (konst_meje (by norm_num) (by norm_num)) ?_
  refine ite_meje10 (konst_meje (by norm_num) (by norm_num)) ?_
  refine ite_meje10 (konst_meje (by norm_num) (by norm_num)) ?_
  refine ite_meje10 (konst_meje (by norm_num) (by norm_num)) ?_
  refine ite_meje10 (konst_meje (by norm_num) (by norm_num)) ?_
  refine ite_meje10 (konst_meje (by norm_num) (by norm_num)) ?_
  refine ite_meje10 (konst_meje (by norm_num) (by norm_num)) ?_
  refine ite_meje10 (konst_meje (by norm_num) (by norm_num)) ?_
  refine ite_meje10 (konst_meje (by norm_num) (by norm_num)) ?_
  refine ite_meje10 (konst_meje (by norm_num) (by norm_num)) ?_
  refine ite_meje10 (konst_meje (by norm_num) (by norm_num)) ?_
  exact ite_meje10 (konst_meje (by norm_num) (by norm_num))
    (konst_meje (by norm_num) (by norm_num))

lemma ocena_decentralizacije_meje (s : ℚ) (rang : ℕ) :
    0 ≤ ocena_decentralizacije s rang ∧ ocena_decentralizacije s rang ≤ 10 := by
  unfold ocena_decentralizacije
  refine ite_meje10 (konst_meje (by norm_num) (by norm_num)) ?_
  refine ite_meje10 (konst_meje (by norm_num) (by norm_num)) ?_
  refine ite_meje10 (konst_meje (by norm_num) (by norm_num)) ?_
  refine ite_meje10 (konst_meje (by norm_num) (by norm_num)) ?_
  refine ite_meje10 (konst_meje (by norm_num) (by norm_num)) ?_
  refine ite_meje10 (konst_meje (by norm_num) (by norm_num)) ?_
  refine ite_meje10 (konst_meje (by norm_num) (by norm_num)) ?_
  exact ite_meje10 (konst_meje (by norm_num) (by norm_num))
    (konst_meje (by norm_num) (by norm_num))

lemma ocena_varnosti_meje (rang : ℕ) :
    0 ≤ ocena_varnosti rang ∧ ocena_varnosti rang ≤ 10 := by
  unfold ocena_varnosti
  refine ite_meje10 (konst_meje (by norm_num) (by norm_num)) ?_
  refine ite_meje10 (konst_meje (by norm_num) (by norm_num)) ?_
  refine ite_meje10 (konst_meje (by norm_num) (by norm_num)) ?_
  refine ite_meje10 (konst_meje (by norm_num) (by norm_num)) ?_
  refine ite_meje10 (konst_meje (by norm_num) (by norm_num)) ?_
  refine ite_meje10 (konst_meje (by norm_num) (by norm_num)) ?_
  refine ite_meje10 (konst_meje (by norm_num) (by norm_num)) ?_
  exact ite_meje10 (konst_meje (by norm_num) (by norm_num))
    (konst_meje (by norm_num) (by norm_num))

lemma ocena_revizije_meje (rang : ℕ) (s : ℚ) :
    0 ≤ ocena_revizije rang s ∧ ocena_revizije rang s ≤ 10 := by
  unfold ocena_revizije
  refine ite_meje10 (konst_meje (by norm_num) (by norm_num)) ?_
  refine ite_meje10 (konst_meje (by norm_num) (by norm_num)) ?_
  refine ite_meje10 (konst_meje (by norm_num) (by norm_num)) ?_
  refine ite_meje10 (konst_meje (by norm_num) (by norm_num)) ?_
  refine ite_meje10 (konst_meje (by norm_num) (by norm_num)) ?_
  exact ite_meje10 (konst_meje (by norm_num) (by norm_num))
    (konst_meje (by norm_num) (by norm_num))

lemma ocena_pogodbe_meje (t : Bool) (rang : ℕ) (s : ℚ) :
    0 ≤ ocena_pogodbe t rang s ∧ ocena_pogodbe t rang s ≤ 10 := by
  unfold ocena_pogodbe
  refine ite_meje10 (konst_meje (by norm_num) (by norm_num)) ?_
  refine ite_meje10 (konst_meje (by norm_num) (by norm_num)) ?_
  refine ite_meje10 (konst_meje (by norm_num) (by norm_num)) ?_
  exact ite_meje10 (konst_meje (by norm_num) (by norm_num))
    (konst_meje (by norm_num) (by norm_num))

lemma ocena_distribucije_osnovna_meje (r : ℚ) :
    0 ≤ ocena_distribucije_osnovna r ∧ ocena_distribucije_osnovna r ≤ 10 := by
  unfold ocena_distribucije_osnovna
  refine ite_meje10 (konst_meje (by norm_num) (by norm_num)) ?_
  refine ite_meje10 (konst_meje (by norm_num) (by norm_num)) ?_
  refine ite_meje10 (konst_meje (by norm_num) (by norm_num)) ?_
  refine ite_meje10 (konst_meje (by norm_num) (by norm_num)) ?_
  refine ite_meje10 (konst_meje (by norm_num) (by norm_num)) ?_
  refine ite_meje10 (konst_meje (by norm_num) (by norm_num)) ?_
  exact ite_meje10 (konst_meje (by norm_num) (by norm_num))
    (konst_meje (by norm_num) (by norm_num))

lemma ocena_distribucije_meje (r : ℚ) (rang : ℕ) (s : ℚ) :
    0 ≤ ocena_distribucije r rang s ∧ ocena_distribucije r rang s ≤ 10 := by
  have h := ocena_distribucije_osnovna_meje r
  unfold ocena_distribucije
  refine ite_meje10 (max_meje h (by norm_num) (by norm_num)) ?_
  refine ite_meje10 (max_meje h (by norm_num) (by norm_num)) ?_
  refine ite_meje10 (max_meje h (by norm_num) (by norm_num)) ?_
  exact ite_meje10 (max_meje h (by norm_num) (by norm_num)) h

lemma ocena_inflacije_meje (mz : Option ℚ) (v : ℚ) :
    0 ≤ ocena_inflacije mz v ∧ ocena_inflacije mz v ≤ 10 := by
  unfold ocena_inflacije
  cases mz with
  | none => exact konst_meje (by norm_num) (by norm_num)
  | some x =>
    refine ite_meje10 ?_ (konst_meje (by norm_num) (by norm_num))
    refine ite_meje10 (konst_meje (by norm_num) (by norm_num)) ?_
    refine ite_meje10 (konst_meje (by norm_num) (by norm_num)) ?_
    refine ite_meje10 (konst_meje (by norm_num) (by norm_num)) ?_
    exact ite_meje10 (konst_meje (by norm_num) (by norm_num))
      (konst_meje (by norm_num) (by norm_num))

lemma ocena_vestinga_meje (s : ℚ) : 0 ≤ ocena_vestinga s ∧ ocena_vestinga s ≤ 10 := by
  unfold ocena_vestinga
  refine ite_meje10 (konst_meje (by norm_num) (by norm_num)) ?_
  refine ite_meje10 (konst_meje (by norm_num) (by norm_num)) ?_
  refine ite_meje10 (konst_meje (by norm_num) (by norm_num)) ?_
  refine ite_meje10 (konst_meje (by norm_num) (by norm_num)) ?_
  refine ite_meje10 (konst_meje (by norm_num) (by norm_num)) ?_
  exact ite_meje10 (konst_meje (by norm_num) (by norm_num))
    (konst_meje (by norm_num) (by norm_num))

lemma ocena_koncentracije_osnovna_meje (a : ℚ) :
    0 ≤ ocena_koncentracije_osnovna a ∧ ocena_koncentracije_osnovna a ≤ 10 := by
  unfold ocena_koncentracije_osnovna
  refine ite_meje10 (konst_meje (by norm_num) (by norm_num)) ?_
  refine ite_meje10 (konst_meje (by norm_num) (by norm_num)) ?_
  refine ite_meje10 (konst_meje (by norm_num) (by norm_num)) ?_
  refine ite_meje10 (konst_meje (by norm_num) (by norm_num)) ?_
  refine ite_meje10 (konst_meje (by norm_num) (by norm_num)) ?_
  exact ite_meje10 (konst_meje (by norm_num) (by norm_num))
    (konst_meje (by norm_num) (by norm_num))

lemma ocena_koncentracije_meje (a : ℚ) (rang : ℕ) (s : ℚ) :
    0 ≤ ocena_koncentracije a rang s ∧ ocena_koncentracije a rang s ≤ 10 := by
  have h := ocena_koncentracije_osnovna_meje a
  unfold ocena_koncentracije
  refine ite_meje10 (max_meje h (by norm_num) (by norm_num)) ?_
  refine ite_meje10 (max_meje h (by norm_num) (by norm_num)) ?_
  refine ite_meje10 (max_meje h (by norm_num) (by norm_num)) ?_
  exact ite_meje10 (max_meje h (by norm_num) (by norm_num)) h

lemma ocena_likvidnosti_meje (v : ℚ) :
    0 ≤ ocena_likvidnosti v ∧ ocena_likvidnosti v ≤ 10 := by
  unfold ocena_likvidnosti
  refine ite_meje10 (konst_meje (by norm_num) (by norm_num)) ?_
  refine ite_meje10 (konst_meje (by norm_num) (by norm_num)) ?_
  refine ite_meje10 (konst_meje (by norm_num) (by norm_num)) ?_
  refine ite_meje10 (konst_meje (by norm_num) (by norm_num)) ?_
  refine ite_meje10 (konst_meje (by norm_num) (by norm_num)) ?_
  refine ite_meje10 (konst_meje (by norm_num) (by norm_num)) ?_
  refine ite_meje10 (konst_meje (by norm_num) (by norm_num)) ?_
  refine ite_meje10 (konst_meje (by norm_num) (by norm_num)) ?_
  exact ite_meje10 (konst_meje (by norm_num) (by norm_num))
    (konst_meje (by norm_num) (by norm_num))

lemma ocena_manipulacije_meje (v : ℚ) :
    0 ≤ ocena_manipulacije v ∧ ocena_manipulacije v ≤ 10 := by
  unfold ocena_manipulacije
  refine ite_meje10 (konst_meje (by norm_num) (by norm_num)) ?_
  refine ite_meje10 (konst_meje (by norm_num) (by norm_num)) ?_
  refine ite_meje10 (konst_meje (by norm_num) (by norm_num)) ?_
  refine ite_meje10 (konst_meje (by norm_num) (by norm_num)) ?_
  exact ite_meje10 (konst_meje (by norm_num) (by norm_num))
    (konst_meje (by norm_num) (by norm_num))

lemma ocena_vzdrznosti_meje (rang : ℕ) (s : ℚ) :
    0 ≤ ocena_vzdrznosti rang s ∧ ocena_vzdrznosti rang s ≤ 10 := by
  unfold ocena_vzdrznosti
  refine ite_meje10 (konst_meje (by norm_num) (by norm_num)) ?_
  refine ite_meje10 (konst_meje (by norm_num) (by norm_num)) ?_
  refine ite_meje10 (konst_meje (by norm_num) (by norm_num)) ?_
  refine ite_meje10 (konst_meje (by norm_num) (by norm_num)) ?_
  exact ite_meje10 (konst_meje (by norm_num) (by norm_num))
    (konst_meje (by norm_num) (by norm_num))

lemma ocena_transparentnosti_osnovna_meje (k : ℕ) :
    0 ≤ ocena_transparentnosti_osnovna k ∧ ocena_transparentnosti_osnovna k ≤ 10 := by
  unfold ocena_transparentnosti_osnovna
  refine ite_meje10 (konst_meje (by norm_num) (by norm_num)) ?_
  refine ite_meje10 (konst_meje (by norm_num) (by norm_num)) ?_
  refine ite_meje10 (konst_meje (by norm_num) (by norm_num)) ?_
  exact ite_meje10 (konst_meje (by norm_num) (by norm_num))
    (konst_meje (by norm_num) (by norm_num))

lemma ocena_transparentnosti_meje (k rang : ℕ) (s : ℚ) :
    0 ≤ ocena_transparentnosti k rang s ∧ ocena_transparentnosti k rang s ≤ 10 := by
  have h := ocena_transparentnosti_osnovna_meje k
  unfold ocena_transparentnosti
  exact ite_meje10 (max_meje h (by norm_num) (by norm_num)) h

lemma ocena_izkusenj_meje (rang : ℕ) (s : ℚ) :
    0 ≤ ocena_izkusenj rang s ∧ ocena_izkusenj rang s ≤ 10 := by
  unfold ocena_izkusenj
  refine ite_meje10 (konst_meje (by norm_num) (by norm_num)) ?_
  refine ite_meje10 (konst_meje (by norm_num) (by norm_num)) ?_
  refine ite_meje10 (konst_meje (by norm_num) (by norm_num)) ?_
  refine ite_meje10 (konst_meje (by norm_num) (by norm_num)) ?_
  refine ite_meje10 (konst_meje (by norm_num) (by norm_num)) ?_
  exact ite_meje10 (konst_meje (by norm_num) (by norm_num))
    (konst_meje (by norm_num) (by norm_num))

lemma ocena_angaziranosti_meje (k rang : ℕ) :
    0 ≤ ocena_angaziranosti k rang ∧ ocena_angaziranosti k rang ≤ 10 := by
  unfold ocena_angaziranosti
  refine ite_meje10 (konst_meje (by norm_num) (by norm_num)) ?_
  refine ite_meje10 (konst_meje (by norm_num) (by norm_num)) ?_
  refine ite_meje10 (konst_meje (by norm_num) (by norm_num)) ?_
  refine ite_meje10 (konst_meje (by norm_num) (by norm_num)) ?_
  refine ite_meje10 (konst_meje (by norm_num) (by norm_num)) ?_
  refine ite_meje10 (konst_meje (by norm_num) (by norm_num)) ?_
  refine ite_meje10 (konst_meje (by norm_num) (by norm_num)) ?_
  refine ite_meje10 (konst_meje (by norm_num) (by norm_num)) ?_
  refine ite_meje10 (konst_meje (by norm_num) (by norm_num)) ?_
  refine ite_meje10 (konst_meje (by norm_num) (by norm_num)) ?_
  exact ite_meje10 (konst_meje (by norm_num) (by norm_num))
    (konst_meje (by norm_num) (by norm_num))

lemma ocena_dokumentacije_meje (w o : Bool) (d : ℕ) :
    0 ≤ ocena_dokumentacije w o d ∧ ocena_dokumentacije w o d ≤ 10 := by
  unfold ocena_dokumentacije
  refine ite_meje10 (konst_meje (by norm_num) (by norm_num)) ?_
  refine ite_meje10 (konst_meje (by norm_num) (by norm_num)) ?_
  refine ite_meje10 (konst_meje (by norm_num) (by norm_num)) ?_
  refine ite_meje10 (konst_meje (by norm_num) (by norm_num)) ?_
  refine ite_meje10 (konst_meje (by norm_num) (by norm_num)) ?_
  exact ite_meje10 (konst_meje (by norm_num) (by norm_num))
    (konst_meje (by norm_num) (by norm_num))

lemma ocena_marketinga_meje (s : ℚ) :
    0 ≤ ocena_marketinga s ∧ ocena_marketinga s ≤ 10 := by
  unfold ocena_marketinga
  refine ite_meje10 (konst_meje (by norm_num) (by norm_num)) ?_
  refine ite_meje10 (konst_meje (by norm_num) (by norm_num)) ?_
  refine ite_meje10 (konst_meje (by norm_num) (by norm_num)) ?_
  exact ite_meje10 (konst_meje (by norm_num) (by norm_num))
    (konst_meje (by norm_num) (by norm_num))

lemma ocena_prisotnosti_meje (t r rang : ℕ) :
    0 ≤ ocena_prisotnosti t r rang ∧ ocena_prisotnosti t r rang ≤ 10 := by
  unfold ocena_prisotnosti
  refine ite_meje10 (konst_meje (by norm_num) (by norm_num)) ?_
  refine ite_meje10 (konst_meje (by norm_num) (by norm_num)) ?_
  refine ite_meje10 (konst_meje (by norm_num) (by norm_num)) ?_
  refine ite_meje10 (konst_meje (by norm_num) (by norm_num)) ?_
  refine ite_meje10 (konst_meje (by norm_num) (by norm_num)) ?_
  refine ite_meje10 (konst_meje (by norm_num) (by norm_num)) ?_
  refine ite_meje10 (konst_meje (by norm_num) (by norm_num)) ?_
  exact ite_meje10 (konst_meje (by norm_num) (by norm_num))
    (konst_meje (by norm_num) (by norm_num))

lemma ocena_zdravja_meje (a rang : ℕ) :
    0 ≤ ocena_zdravja a rang ∧ ocena_zdravja a rang ≤ 10 := by
  unfold ocena_zdravja
  refine ite_meje10 (konst_meje (by norm_num) (by norm_num)) ?_
  refine ite_meje10 (konst_meje (by norm_num) (by norm_num)) ?_
  refine ite_meje10 (konst_meje (by norm_num) (by norm_num)) ?_
  refine ite_meje10 (konst_meje (by norm_num) (by norm_num)) ?_
  refine ite_meje10 (konst_meje (by norm_num) (by norm_num)) ?_
  refine ite_meje10 (konst_meje (by norm_num) (by norm_num)) ?_
  refine ite_meje10 (konst_meje (by norm_num) (by norm_num)) ?_
  refine ite_meje10 (konst_meje (by norm_num) (by norm_num)) ?_
  exact ite_meje10 (konst_meje (by norm_num) (by norm_num))
    (konst_meje (by norm_num) (by norm_num))

lemma analiziraj_tehnicne_v_mejah (p : Podatki) : (analiziraj_tehnicne p).v_mejah := by
  refine ⟨?_, ?_, ?_, ?_, ?_, ?_⟩
  · exact ocena_kode_meje _ _
  · exact ocena_arhitekture_meje _ _ _ _ _
  · exact ocena_decentralizacije_meje _ _
  · exact ocena_varnosti_meje _
  · exact ocena_revizije_meje _ _
  · exact ocena_pogodbe_meje _ _ _

lemma analiziraj_ekonomske_v_mejah (p : Podatki) : (analiziraj_ekonomske p).v_mejah := by
  refine ⟨?_, ?_, ?_, ?_, ?_, ?_, ?_⟩
  · exact ocena_distribucije_meje _ _ _
  · exact ocena_inflacije_meje _ _
  · exact ocena_vestinga_meje _
  · exact ocena_koncentracije_meje _ _ _
  · exact ocena_likvidnosti_meje _
  · exact ocena_manipulacije_meje _
  · exact ocena_vzdrznosti_meje _ _

lemma analiziraj_socialne_v_mejah (p : Podatki) : (analiziraj_socialne p).v_mejah := by
  refine ⟨?_, ?_, ?_, ?_, ?_, ?_, ?_⟩
  · exact ocena_transparentnosti_meje _ _ _
  · exact ocena_izkusenj_meje _ _
  · exact ocena_dokumentacije_meje _ _ _
  · exact ocena_angaziranosti_meje _ _
  · exact ocena_marketinga_meje _
  · exact ocena_prisotnosti_meje _ _ _
  · exact ocena_zdravja_meje _ _

lemma izracunaj_oceno_teh_meje (m : TehnicneMetrike) (h : m.v_mejah) :
    0 ≤ m.izracunaj_oceno ∧ m.izracunaj_oceno ≤ 100 := by
  obtain ⟨⟨a1, a2⟩, ⟨b1, b2⟩, ⟨c1, c2⟩, ⟨d1, d2⟩, ⟨e1, e2⟩, ⟨f1, f2⟩⟩ := h
  unfold TehnicneMetrike.izracunaj_oceno
  constructor <;> nlinarith

lemma izracunaj_oceno_eko_meje (m : EkonomskeMetrike) (h : m.v_mejah) :
    0 ≤ m.izracunaj_oceno ∧ m.izracunaj_oceno ≤ 100 := by
  obtain ⟨⟨a1, a2⟩, ⟨b1, b2⟩, ⟨c1, c2⟩, ⟨d1, d2⟩, ⟨e1, e2⟩, ⟨f1, f2⟩, ⟨g1, g2⟩⟩ := h
  unfold EkonomskeMetrike.izracunaj_oceno
  constructor <;> nlinarith

lemma izracunaj_oceno_soc_meje (m : SocialneMetrike) (h : m.v_mejah) :
    0 ≤ m.izracunaj_oceno ∧ m.izracunaj_oceno ≤ 100 := by
  obtain ⟨⟨a1, a2⟩, ⟨b1, b2⟩, ⟨c1, c2⟩, ⟨d1, d2⟩, ⟨e1, e2⟩, ⟨f1, f2⟩, ⟨g1, g2⟩⟩ := h
  unfold SocialneMetrike.izracunaj_oceno
  constructor <;> nlinarith

lemma verjetnost_meje (baza : String → Option ZapisPrevare) (p : Podatki) (ime : String) :
    0 ≤ (analiziraj_prevare baza p ime).verjetnost_prevare ∧
      (analiziraj_prevare baza p ime).verjetnost_prevare ≤ 1 := by
  unfold analiziraj_prevare
  cases baza ime with
  | some z => exact ⟨by norm_num, by norm_num⟩
  | none =>
    cases baza p.coin_id with
    | some z => exact ⟨by norm_num, by norm_num⟩
    | none =>
      refine ⟨le_min (by positivity) (by norm_num),
        le_trans (min_le_right _ _) (by norm_num)⟩

lemma ustvari_analizo_koncna_meje (p : Podatki) (ime simbol : String)
    (ind : IndikatorjiPrevare) (h0 : 0 ≤ ind.verjetnost_prevare)
    (h1 : ind.verjetnost_prevare ≤ 1) :
    0 ≤ (ustvari_analizo p ime simbol ind).koncna_ocena ∧
      (ustvari_analizo p ime simbol ind).koncna_ocena ≤ 100 := by
  obtain ⟨ht0, ht1⟩ := izracunaj_oceno_teh_meje _ (analiziraj_tehnicne_v_mejah p)
  obtain ⟨he0, he1⟩ := izracunaj_oceno_eko_meje _ (analiziraj_ekonomske_v_mejah p)
  obtain ⟨hs0, hs1⟩ := izracunaj_oceno_soc_meje _ (analiziraj_socialne_v_mejah p)
  unfold ustvari_analizo UTEZ_TEHNICNE UTEZ_EKONOMSKE UTEZ_SOCIALNE
  dsimp only
  set t := (analiziraj_tehnicne p).izracunaj_oceno with ht
  set e := (analiziraj_ekonomske p).izracunaj_oceno with he
  set s := (analiziraj_socialne p).izracunaj_oceno with hs
  set v := ind.verjetnost_prevare with hv
  split_ifs with hpoz
  · have hsur0 : (0:ℚ) ≤ t * 0.40 + e * 0.35 + s * 0.25 := by nlinarith
    have hsur1 : t * 0.40 + e * 0.35 + s * 0.25 ≤ 100 := by nlinarith
    have hk0 : (0:ℚ) ≤ 1 - v * 0.5 := by nlinarith
    have hk1 : 1 - v * 0.5 ≤ 1 := by nlinarith
    constructor
    · exact mul_nonneg hsur0 hk0
    · calc (t * 0.40 + e * 0.35 + s * 0.25) * (1 - v * 0.5)
          ≤ 100 * 1 := mul_le_mul hsur1 hk1 hk0 (by norm_num)
        _ = 100 := by norm_num
  · constructor <;> nlinarith

/-- C6: for every input payload every computed sub-metric score lies in
`[0, 10]`, every axis score lies in `[0, 100]`, and the final (penalised)
score of the analysis pipeline lies in `[0, 100]`. -/
theorem C6_meje_ocen (p : Podatki) (baza : String → Option ZapisPrevare)
    (ime simbol : String) :
    (analiziraj_tehnicne p).v_mejah ∧
    (analiziraj_ekonomske p).v_mejah ∧
    (analiziraj_socialne p).v_mejah ∧
    (0 ≤ (analiziraj_tehnicne p).izracunaj_oceno ∧
      (analiziraj_tehnicne p).izracunaj_oceno ≤ 100) ∧
    (0 ≤ (analiziraj_ekonomske p).izracunaj_oceno ∧
      (analiziraj_ekonomske p).izracunaj_oceno ≤ 100) ∧
    (0 ≤ (analiziraj_socialne p).izracunaj_oceno ∧
      (analiziraj_socialne p).izracunaj_oceno ≤ 100) ∧
    (0 ≤ (ustvari_analizo p ime simbol (analiziraj_prevare baza p ime)).koncna_ocena ∧
      (ustvari_analizo p ime simbol (analiziraj_prevare baza p ime)).koncna_ocena ≤ 100) :=
  ⟨analiziraj_tehnicne_v_mejah p, analiziraj_ekonomske_v_mejah p,
   analiziraj_socialne_v_mejah p,
   izracunaj_oceno_teh_meje _ (analiziraj_tehnicne_v_mejah p),
   izracunaj_oceno_eko_meje _ (analiziraj_ekonomske_v_mejah p),
   izracunaj_oceno_soc_meje _ (analiziraj_socialne_v_mejah p),
   ustvari_analizo_koncna_meje p ime simbol _
     (verjetnost_meje baza p ime).1 (verjetnost_meje baza p ime).2⟩

lemma likvidnost_ub_95 (v : ℚ) : ocena_likvidnosti v ≤ 9.5 := by
  unfold ocena_likvidnosti
  refine ite_le (by norm_num) ?_
  refine ite_le (by norm_num) ?_
  refine ite_le (by norm_num) ?_
  refine ite_le (by norm_num) ?_
  refine ite_le (by norm_num) ?_
  refine ite_le (by norm_num) ?_
  refine ite_le (by norm_num) ?_
  refine ite_le (by norm_num) ?_
  exact ite_le (by norm_num) (by norm_num)

lemma likvidnost_ub_90 (v : ℚ) (h : v ≤ 2000000000) : ocena_likvidnosti v ≤ 9.0 := by
  unfold ocena_likvidnosti
  rw [if_neg (by linarith)]
  refine ite_le (by norm_num) ?_
  refine ite_le (by norm_num) ?_
  refine ite_le (by norm_num) ?_
  refine ite_le (by norm_num) ?_
  refine ite_le (by norm_num) ?_
  refine ite_le (by norm_num) ?_
  refine ite_le (by norm_num) ?_
  exact ite_le (by norm_num) (by norm_num)

lemma likvidnost_ub_85 (v : ℚ) (h : v ≤ 1000000000) : ocena_likvidnosti v ≤ 8.5 := by
  unfold ocena_likvidnosti
  rw [if_neg (by linarith), if_neg (by linarith)]
  refine ite_le (by norm_num) ?_
  refine ite_le (by norm_num) ?_
  refine ite_le (by norm_num) ?_
  refine ite_le (by norm_num) ?_
  refine ite_le (by norm_num) ?_
  refine ite_le (by norm_num) ?_
  exact ite_le (by norm_num) (by norm_num)

lemma likvidnost_ub_80 (v : ℚ) (h : v ≤ 500000000) : ocena_likvidnosti v ≤ 8.0 := by
  unfold ocena_likvidnosti
  rw [if_neg (by linarith), if_neg (by linarith), if_neg (by linarith)]
  refine ite_le (by norm_num) ?_
  refine ite_le (by norm_num) ?_
  refine ite_le (by norm_num) ?_
  refine ite_le (by norm_num) ?_
  refine ite_le (by norm_num) ?_
  exact ite_le (by norm_num) (by norm_num)

lemma likvidnost_ub_75 (v : ℚ) (h : v ≤ 200000000) : ocena_likvidnosti v ≤ 7.5 := by
  unfold ocena_likvidnosti
  rw [if_neg (by linarith), if_neg (by linarith), if_neg (by linarith),
    if_neg (by linarith)]
  refine ite_le (by norm_num) ?_
  refine ite_le (by norm_num) ?_
  refine ite_le (by norm_num) ?_
  refine ite_le (by norm_num) ?_
  exact ite_le (by norm_num) (by norm_num)

lemma likvidnost_ub_70 (v : ℚ) (h : v ≤ 100000000) : ocena_likvidnosti v ≤ 7.0 := by
  unfold ocena_likvidnosti
  rw [if_neg (by linarith), if_neg (by linarith), if_neg (by linarith),
    if_neg (by linarith), if_neg (by linarith)]
  refine ite_le (by norm_num) ?_
  refine ite_le (by norm_num) ?_
  refine ite_le (by norm_num) ?_
  exact ite_le (by norm_num) (by norm_num)

lemma likvidnost_ub_65 (v : ℚ) (h : v ≤ 50000000) : ocena_likvidnosti v ≤ 6.5 := by
  unfold ocena_likvidnosti
  rw [if_neg (by linarith), if_neg (by linarith), if_neg (by linarith),
    if_neg (by linarith), if_neg (by linarith), if_neg (by linarith)]
  refine ite_le (by norm_num) ?_
  refine ite_le (by norm_num) ?_
  exact ite_le (by norm_num) (by norm_num)

lemma likvidnost_ub_60 (v : ℚ) (h : v ≤ 10000000) : ocena_likvidnosti v ≤ 6.0 := by
  unfold ocena_likvidnosti
  rw [if_neg (by linarith), if_neg (by linarith), if_neg (by linarith),
    if_neg (by linarith), if_neg (by linarith), if_neg (by linarith),
    if_neg (by linarith)]
  refine ite_le (by norm_num) ?_
  exact ite_le (by norm_num) (by norm_num)

lemma likvidnost_ub_50 (v : ℚ) (h : v ≤ 1000000) : ocena_likvidnosti v ≤ 5.0 := by
  unfold ocena_likvidnosti
  rw [if_neg (by linarith), if_neg (by linarith), if_neg (by linarith),
    if_neg (by linarith), if_neg (by linarith), if_neg (by linarith),
    if_neg (by linarith), if_neg (by linarith)]
  exact ite_le (by norm_num) (by norm_num)

lemma likvidnost_ub_40 (v : ℚ) (h : v ≤ 100000) : ocena_likvidnosti v ≤ 4.0 := by
  unfold ocena_likvidnosti
  rw [if_neg (by linarith), if_neg (by linarith), if_neg (by linarith),
    if_neg (by linarith), if_neg (by linarith), if_neg (by linarith),
    if_neg (by linarith), if_neg (by linarith), if_neg (by linarith)]

lemma likvidnost_mono {v1 v2 : ℚ} (h : v1 ≤ v2) :
    ocena_likvidnosti v1 ≤ ocena_likvidnosti v2 := by
  conv_rhs => unfold ocena_likvidnosti
  split_ifs with h1 h2 h3 h4 h5 h6 h7 h8 h9
  · exact likvidnost_ub_95 v1
  · exact likvidnost_ub_90 v1 (by linarith)
  · exact likvidnost_ub_85 v1 (by linarith)
  · exact likvidnost_ub_80 v1 (by linarith)
  · exact likvidnost_ub_75 v1 (by linarith)
  · exact likvidnost_ub_70 v1 (by linarith)
  · exact likvidnost_ub_65 v1 (by linarith)
  · exact likvidnost_ub_60 v1 (by linarith)
  · exact likvidnost_ub_50 v1 (by linarith)
  · exact likvidnost_ub_40 v1 (by linarith)

/-- C8: raising the 24h volume (everything else unconstrained) never
lowers the liquidity-depth sub-score. -/
theorem C8_monotonost_likvidnosti (p1 p2 : Podatki)
    (h : dobi_volumen p1 < dobi_volumen p2) :
    (analiziraj_ekonomske p1).globina_likvidnosti ≤
      (analiziraj_ekonomske p2).globina_likvidnosti := by
  have hg : ∀ q : Podatki,
      (analiziraj_ekonomske q).globina_likvidnosti =
        ocena_likvidnosti (dobi_volumen q) := fun q => rfl
  rw [hg, hg]
  exact likvidnost_mono (le_of_lt h)

/-- C8 witness: raising the volume from 0 to 3 billion. -/
theorem C8_monotonost_likvidnosti_witness :
    (analiziraj_ekonomske {}).globina_likvidnosti ≤
      (analiziraj_ekonomske { vol_markets := some 3000000000 }).globina_likvidnosti :=
  C8_monotonost_likvidnosti {} { vol_markets := some 3000000000 }
    (by norm_num [dobi_volumen, pyOr])

/-- C4: a known-scam flag or probability above 0.8 short-circuits the tier
to critical for every score; otherwise the tier is determined solely by
the score bands. -/
theorem C4_stopnja_tveganja (ocena : ℚ) (ind : IndikatorjiPrevare) :
    ((ind.je_znana_prevara = true ∨ 0.8 < ind.verjetnost_prevare) →
      doloci_stopnjo ocena ind = StopnjaTveganja.KRITICNO) ∧
    (ind.je_znana_prevara = false → ind.verjetnost_prevare ≤ 0.8 →
      doloci_stopnjo ocena ind =
        if 85 ≤ ocena then StopnjaTveganja.ZELO_NIZKO
        else if 70 ≤ ocena then StopnjaTveganja.NIZKO
        else if 55 ≤ ocena then StopnjaTveganja.SREDNJE
        else if 40 ≤ ocena then StopnjaTveganja.VISOKO
        else if 25 ≤ ocena then StopnjaTveganja.ZELO_VISOKO
        else StopnjaTveganja.KRITICNO) := by
  constructor
  · intro h
    unfold doloci_stopnjo
    rw [if_pos]
    simpa using h
  · intro h1 h2
    unfold doloci_stopnjo
    rw [if_neg (by simp [h1, not_lt, h2])]

/-- C4 witness: a flagged record at score 95 is critical; a clean record
at score 90 is very low risk. -/
theorem C4_stopnja_tveganja_witness :
    doloci_stopnjo 95 { je_znana_prevara := true } = StopnjaTveganja.KRITICNO ∧
    doloci_stopnjo 90 {} = StopnjaTveganja.ZELO_NIZKO := by
  constructor
  · exact (C4_stopnja_tveganja 95 { je_znana_prevara := true }).1 (Or.inl rfl)
  · rw [(C4_stopnja_tveganja 90 {}).2 rfl (by norm_num)]
    norm_num

/-- C5 counterexample: at rank 500 with no genesis date the technical
analyzer infers age 1 year while the economic and social analyzers infer
2 years, so the three analyzers do not share the spec's single band
function (which ends `≤200→2y, else→1y`). -/
theorem C5_protiprimer :
    starost_iz_ranga_teh 500 = 1.0 ∧ starost_iz_ranga_eko 500 = 2.0 ∧
    starost_iz_ranga_soc 500 = 2.0 ∧
    ¬ starost_iz_ranga_eko 500 = starost_iz_ranga_spec 500 := by
  refine ⟨?_, ?_, ?_, ?_⟩ <;>
    norm_num [starost_iz_ranga_teh, starost_iz_ranga_eko,
      starost_iz_ranga_soc, starost_iz_ranga_spec]

/-- C5 (amended): the technical fallback equals the spec band; the
economic and social fallbacks are identical to each other and agree with
the spec band only up to rank 200 (above that they give 2y instead of
1y); at rank 15 all three infer 6.0 years, as in Scenario D. -/
theorem C5_starost_iz_ranga :
    (∀ rang, starost_iz_ranga_teh rang = starost_iz_ranga_spec rang) ∧
    (∀ rang, starost_iz_ranga_eko rang = starost_iz_ranga_soc rang) ∧
    (∀ rang, rang ≤ 200 →
      starost_iz_ranga_teh rang = starost_iz_ranga_eko rang ∧
      starost_iz_ranga_teh rang = starost_iz_ranga_soc rang) ∧
    (izracunaj_starost pRang15 = 0 ∧ dobi_rang pRang15 = 15 ∧
      starost_iz_ranga_teh 15 = 6.0 ∧ starost_iz_ranga_eko 15 = 6.0 ∧
      starost_iz_ranga_soc 15 = 6.0) := by
  refine ⟨fun rang => rfl, fun rang => rfl, ?_, rfl, rfl, ?_, ?_, ?_⟩
  · intro rang h
    unfold starost_iz_ranga_teh starost_iz_ranga_eko starost_iz_ranga_soc
    constructor <;> split_ifs <;> first | rfl | (exfalso; omega)
  · norm_num [starost_iz_ranga_teh]
  · norm_num [starost_iz_ranga_eko]
  · norm_num [starost_iz_ranga_soc]

/-- C5 witness: the rank-≤-200 agreement applied at rank 150. -/
theorem C5_starost_iz_ranga_witness :
    starost_iz_ranga_teh 150 = starost_iz_ranga_eko 150 ∧
    starost_iz_ranga_teh 150 = starost_iz_ranga_soc 150 :=
  C5_starost_iz_ranga.2.2.1 150 (by norm_num)

/-- C7: the project category is `LAYER_1` on a layer-1-style category
label; otherwise `LAYER_1` on an infrastructure-style label combined with
rank at most 100 and final score at least 55; otherwise
`KVALITETEN_TOKEN` at score at least 50; otherwise `PROBLEMATICEN`. -/
theorem C7_kategorija (p : Podatki) (ocena : ℚ) :
    doloci_kategorijo p ocena =
      if ∃ kat ∈ p.kategorije,
          (vsebuje (maleCrke kat) "layer 1" ∨ vsebuje (maleCrke kat) "layer 0" ∨
           vsebuje (maleCrke kat) "layer-1" ∨ vsebuje (maleCrke kat) "layer-0" ∨
           vsebuje (maleCrke kat) "smart contract platform" ∨
           vsebuje (maleCrke kat) "proof of stake" ∨
           vsebuje (maleCrke kat) "proof of work") then
        KategorijaProjekta.LAYER_1
      else if (∃ kat ∈ p.kategorije,
          (vsebuje (maleCrke kat) "blockchain" ∨ vsebuje (maleCrke kat) "protocol" ∨
           vsebuje (maleCrke kat) "infrastructure" ∨
           vsebuje (maleCrke kat) "ecosystem")) ∧
          pyOrN p.rank_markets (pyOrN p.rank_info 10000) ≤ 100 ∧ 55 ≤ ocena then
        KategorijaProjekta.LAYER_1
      else if 50 ≤ ocena then KategorijaProjekta.KVALITETEN_TOKEN
      else KategorijaProjekta.PROBLEMATICEN := by
  unfold doloci_kategorijo
  simp only [List.any_eq_true, Bool.or_eq_true, or_assoc]

/-- C9: batch classification produces exactly one entry per identifier —
the entry is determined by that identifier's own classification alone
(success record, or an error record carrying the identifier and the
failure message) — so one item's failure never aborts the rest. -/
theorem C9_batch_neodvisnost (klasif : String → Except String Rezultat)
    (identifikatorji : List String) :
    (batch_analiziraj klasif identifikatorji).length = identifikatorji.length ∧
    batch_analiziraj klasif identifikatorji =
      identifikatorji.map (fun ident =>
        match klasif ident with
        | Except.ok rezultat => BatchVnos.uspeh rezultat
        | Except.error e => BatchVnos.napaka ident e) := by
  have hmap : ∀ l : List String,
      batch_analiziraj klasif l = l.map (fun ident =>
        match klasif ident with
        | Except.ok rezultat => BatchVnos.uspeh rezultat
        | Except.error e => BatchVnos.napaka ident e) := by
    intro l
    induction l with
    | nil => rfl
    | cons glava rep ih => simp [batch_analiziraj, ih]
  refine ⟨?_, hmap identifikatorji⟩
  rw [hmap identifikatorji, List.length_map]

/-- C10: when both registry lookups miss, the dynamic heuristic caps the
fraud probability at 0.95 (in particular below 1) and leaves the
known-scam flag false, so probability 1.0 or a set flag can only come
from a registry hit. -/
theorem C10_dinamicna_verjetnost (baza : String → Option ZapisPrevare)
    (p : Podatki) (ime : String)
    (h1 : baza ime = none) (h2 : baza p.coin_id = none) :
    (analiziraj_prevare baza p ime).verjetnost_prevare ≤ 0.95 ∧
    (analiziraj_prevare baza p ime).verjetnost_prevare ≠ 1.0 ∧
    (analiziraj_prevare baza p ime).je_znana_prevara = false := by
  unfold analiziraj_prevare
  rw [h1, h2]
  exact ⟨min_le_right _ _,
    ne_of_lt (lt_of_le_of_lt (min_le_right _ _) (by norm_num)), rfl⟩

/-- C10 witness: the empty registry at the empty payload. -/
theorem C10_dinamicna_verjetnost_witness :
    (analiziraj_prevare bazaPrazna {} "x").verjetnost_prevare ≤ 0.95 ∧
    (analiziraj_prevare bazaPrazna {} "x").verjetnost_prevare ≠ 1.0 ∧
    (analiziraj_prevare bazaPrazna {} "x").je_znana_prevara = false :=
  C10_dinamicna_verjetnost bazaPrazna {} "x" rfl rfl

/-- C2 (amended): a registry hit yields probability 1.0, a set known-scam
flag, and the report's rendered risk tier is the literal string
`"CRITICAL"` (not the `StopnjaTveganja.KRITICNO` rendering
`"Critical Risk - Likely Scam"`). -/
theorem C2_porocilo_prevare (baza : String → Option ZapisPrevare)
    (pridobi : String → Option Podatki) (identifikator : String)
    (zapis : ZapisPrevare) (h : baza identifikator = some zapis) :
    rezultatVerjetnost (klasificiraj baza pridobi identifikator) = some 1.0 ∧
    rezultatZnana (klasificiraj baza pridobi identifikator) = some true ∧
    rezultatStopnja (klasificiraj baza pridobi identifikator) = some "CRITICAL" := by
  unfold klasificiraj
  rw [h]
  exact ⟨rfl, rfl, rfl⟩

/-- C2 witness: the `squid` registry record. -/
theorem C2_porocilo_prevare_witness :
    rezultatVerjetnost (klasificiraj bazaSquid pridobiPrazno "squid") = some 1.0 ∧
    rezultatZnana (klasificiraj bazaSquid pridobiPrazno "squid") = some true ∧
    rezultatStopnja (klasificiraj bazaSquid pridobiPrazno "squid") = some "CRITICAL" :=
  C2_porocilo_prevare bazaSquid pridobiPrazno "squid" zapisSquid rfl

/-- C2 counterexample: at a registry hit the rendered risk tier is the
string `"CRITICAL"`, which differs from the claimed rendering
`"Critical Risk - Likely Scam"`. -/
theorem C2_protiprimer :
    rezultatStopnja (klasificiraj bazaSquid pridobiPrazno "squid") = some "CRITICAL" ∧
    rezultatStopnja (klasificiraj bazaSquid pridobiPrazno "squid") ≠
      some StopnjaTveganja.KRITICNO.value := by
  exact ⟨by decide, by decide⟩

lemma foldl_tocke_imena (ime : String) (l : List String) (z : ℕ × List String) :
    (l.foldl (fun (acc : ℕ × List String) vzorec =>
        if vsebuje ime vzorec then
          (acc.1 + 5, acc.2 ++ [s!"Ime vsebuje hype besedo: \x27{vzorec}\x27"])
        else acc) z).1 =
      z.1 + 5 * (l.filter (fun vzorec => vsebuje ime vzorec)).length := by
  induction l generalizing z with
  | nil => simp
  | cons glava rep ih =>
    by_cases hv : vsebuje ime glava <;> simp [hv, ih] <;> ring

lemma foldl_tocke_fraze (besedilo : String) (l : List String) (z : ℕ × List String) :
    (l.foldl (fun (acc : ℕ × List String) fraza =>
        if vsebuje besedilo fraza then
          (acc.1 + 10, acc.2 ++ [s!"Opis vsebuje rdeco zastavo: \x27{fraza}\x27"])
        else acc) z).1 =
      z.1 + 10 * (l.filter (fun fraza => vsebuje besedilo fraza)).length := by
  induction l generalizing z with
  | nil => simp
  | cons glava rep ih =>
    by_cases hv : vsebuje besedilo glava <;> simp [hv, ih] <;> ring

set_option maxHeartbeats 3000000 in
/-- C3: on the dynamic path (both registry lookups miss) the heuristic's
probability is exactly `min(points/100, 0.95)` with the points accumulated
as specified (+5 per hype token in the name, +10 per suspicious phrase in
the description, the market-cap points for rank > 200, and the
ATH-drawdown and volume points for rank > 100); and the Scenario C payload
(rank 5000, cap $50,000, volume $200, description "guaranteed return",
ATH −99.5 %) gets probability at least 0.6 and scam type `RUG_PULL`. -/
theorem C3_dinamicna_hevristika :
    (∀ (baza : String → Option ZapisPrevare) (p : Podatki) (ime_kovanca : String),
      baza ime_kovanca = none → baza p.coin_id = none →
      (analiziraj_prevare baza p ime_kovanca).verjetnost_prevare =
        min
          (((5 * (sumljiva_imena.filter
                (fun vzorec => vsebuje (maleCrke (p.ime.getD "")) vzorec)).length +
              10 * (rdece_fraze.filter
                (fun fraza => vsebuje (maleCrke p.opis_en) fraza)).length +
              (if 200 < dobi_rang p then
                 if dobi_trzno_kap p < 1000000 ∧ 0 < dobi_trzno_kap p then 15
                 else if dobi_trzno_kap p < 10000000 ∧ 0 < dobi_trzno_kap p then 8
                 else 0
               else 0) +
              (if 100 < dobi_rang p then
                 if pyOr p.ath_info (-50) < -99 then 25
                 else if pyOr p.ath_info (-50) < -95 then 15
                 else 0
               else 0) +
              (if 100 < dobi_rang p then
                 if dobi_volumen p < 1000 ∧ 0 < dobi_trzno_kap p then 20
                 else if dobi_volumen p < 10000 ∧ 0 < dobi_trzno_kap p then 10
                 else 0
               else 0) : ℕ) : ℚ) / 100) 0.95) ∧
    0.6 ≤ (analiziraj_prevare bazaPrazna pScenarijC "testcoin").verjetnost_prevare ∧
    (analiziraj_prevare bazaPrazna pScenarijC "testcoin").tip_prevare =
      TipPrevare.RUG_PULL := by
  have part1 : ∀ (baza : String → Option ZapisPrevare) (p : Podatki) (ime_kovanca : String),
      baza ime_kovanca = none → baza p.coin_id = none →
      (analiziraj_prevare baza p ime_kovanca).verjetnost_prevare =
        min
          (((5 * (sumljiva_imena.filter
                (fun vzorec => vsebuje (maleCrke (p.ime.getD "")) vzorec)).length +
              10 * (rdece_fraze.filter
                (fun fraza => vsebuje (maleCrke p.opis_en) fraza)).length +
              (if 200 < dobi_rang p then
                 if dobi_trzno_kap p < 1000000 ∧ 0 < dobi_trzno_kap p then 15
                 else if dobi_trzno_kap p < 10000000 ∧ 0 < dobi_trzno_kap p then 8
                 else 0
               else 0) +
              (if 100 < dobi_rang p then
                 if pyOr p.ath_info (-50) < -99 then 25
                 else if pyOr p.ath_info (-50) < -95 then 15
                 else 0
               else 0) +
              (if 100 < dobi_rang p then
                 if dobi_volumen p < 1000 ∧ 0 < dobi_trzno_kap p then 20
                 else if dobi_volumen p < 10000 ∧ 0 < dobi_trzno_kap p then 10
                 else 0
               else 0) : ℕ) : ℚ) / 100) 0.95 := by
    intro baza p ime_kovanca h1 h2
    unfold analiziraj_prevare
    rw [h1, h2]
    dsimp only
    simp only [apply_ite (Prod.fst : ℕ × List String → ℕ)]
    simp only [foldl_tocke_fraze, foldl_tocke_imena]
    congr 1
    congr 1
    rw [Nat.cast_inj]
    set a := (sumljiva_imena.filter
      (fun vzorec => vsebuje (maleCrke (p.ime.getD "")) vzorec)).length with ha
    set b := (rdece_fraze.filter
      (fun fraza => vsebuje (maleCrke p.opis_en) fraza)).length with hb
    set rang := dobi_rang p with hrang
    set kap := dobi_trzno_kap p with hkap
    set vol := dobi_volumen p with hvol
    set ath := pyOr p.ath_info (-50) with hath
    split_ifs <;> omega
  refine ⟨part1, ?_, ?_⟩
  · rw [part1 bazaPrazna pScenarijC "testcoin" rfl rfl]
    rw [show (sumljiva_imena.filter (fun vzorec =>
          vsebuje (maleCrke (pScenarijC.ime.getD "")) vzorec)).length = 0 from by decide,
      show (rdece_fraze.filter (fun fraza =>
          vsebuje (maleCrke pScenarijC.opis_en) fraza)).length = 1 from by decide,
      show dobi_rang pScenarijC = 5000 from by decide]
    rw [show dobi_trzno_kap pScenarijC = 50000 from by
        norm_num [dobi_trzno_kap, pyOr, pScenarijC],
      show dobi_volumen pScenarijC = 200 from by
        norm_num [dobi_volumen, pyOr, pScenarijC],
      show pyOr pScenarijC.ath_info (-50) = -99.5 from by
        norm_num [pyOr, pScenarijC]]
    norm_num [min_def]
  · unfold analiziraj_prevare
    rw [show bazaPrazna "testcoin" = none from rfl,
      show bazaPrazna pScenarijC.coin_id = none from rfl]
    dsimp only
    simp only [apply_ite (Prod.fst : ℕ × List String → ℕ)]
    simp only [foldl_tocke_fraze, foldl_tocke_imena]
    rw [show (sumljiva_imena.filter (fun vzorec =>
          vsebuje (maleCrke (pScenarijC.ime.getD "")) vzorec)).length = 0 from by decide,
      show (rdece_fraze.filter (fun fraza =>
          vsebuje (maleCrke pScenarijC.opis_en) fraza)).length = 1 from by decide,
      show dobi_rang pScenarijC = 5000 from by decide]
    rw [show dobi_trzno_kap pScenarijC = 50000 from by
        norm_num [dobi_trzno_kap, pyOr, pScenarijC],
      show dobi_volumen pScenarijC = 200 from by
        norm_num [dobi_volumen, pyOr, pScenarijC],
      show pyOr pScenarijC.ath_info (-50) = -99.5 from by
        norm_num [pyOr, pScenarijC]]
    norm_num [min_def]

/-- C3 witness: the closed-form probability equation instantiated at the
Scenario C payload against the empty registry. -/
theorem C3_dinamicna_hevristika_witness :
    (analiziraj_prevare bazaPrazna pScenarijC "testcoin").verjetnost_prevare =
      min
        (((5 * (sumljiva_imena.filter
              (fun vzorec => vsebuje (maleCrke (pScenarijC.ime.getD "")) vzorec)).length +
            10 * (rdece_fraze.filter
              (fun fraza => vsebuje (maleCrke pScenarijC.opis_en) fraza)).length +
            (if 200 < dobi_rang pScenarijC then
               if dobi_trzno_kap pScenarijC < 1000000 ∧ 0 < dobi_trzno_kap pScenarijC then 15
               else if dobi_trzno_kap pScenarijC < 10000000 ∧
                   0 < dobi_trzno_kap pScenarijC then 8
               else 0
             else 0) +
            (if 100 < dobi_rang pScenarijC then
               if pyOr pScenarijC.ath_info (-50) < -99 then 25
               else if pyOr pScenarijC.ath_info (-50) < -95 then 15
               else 0
             else 0) +
            (if 100 < dobi_rang pScenarijC then
               if dobi_volumen pScenarijC < 1000 ∧ 0 < dobi_trzno_kap pScenarijC then 20
               else if dobi_volumen pScenarijC < 10000 ∧
                   0 < dobi_trzno_kap pScenarijC then 10
               else 0
             else 0) : ℕ) : ℚ) / 100) 0.95 :=
  C3_dinamicna_hevristika.1 bazaPrazna pScenarijC "testcoin" rfl rfl

/-- C1: for every classification that is not a registry hit, each axis
score is the weighted sub-score sum times 10 and the final score is the
0.40/0.35/0.25-weighted sum of the axis scores times the penalty
`1 − 0.5·probability` when the probability is positive and `1` when it is
zero. -/
theorem C1_koncna_ocena (baza : String → Option ZapisPrevare)
    (pridobi : String → Option Podatki) (identifikator : String) (r : Porocilo)
    (hres : klasificiraj baza pridobi identifikator =
      Except.ok (Rezultat.analiza r)) :
    r.tehnicna_ocena =
      (r.tehnicne_metrike.dostopnost_kode * 0.15 +
       r.tehnicne_metrike.kvaliteta_arhitekture * 0.18 +
       r.tehnicne_metrike.decentralizacija * 0.22 +
       r.tehnicne_metrike.varnostni_mehanizmi * 0.22 +
       r.tehnicne_metrike.status_revizije * 0.13 +
       r.tehnicne_metrike.tveganje_pogodbe * 0.10) * 10 ∧
    r.ekonomska_ocena =
      (r.ekonomske_metrike.pravicnost_distribucije * 0.18 +
       r.ekonomske_metrike.mehanizem_inflacije * 0.12 +
       r.ekonomske_metrike.vesting_urnik * 0.15 +
       r.ekonomske_metrike.koncentracija_lastnistva * 0.20 +
       r.ekonomske_metrike.globina_likvidnosti * 0.15 +
       r.ekonomske_metrike.indikatorji_manipulacije * 0.12 +
       r.ekonomske_metrike.vzdrznost_tokenomike * 0.08) * 10 ∧
    r.socialna_ocena =
      (r.socialne_metrike.transparentnost_ekipe * 0.22 +
       r.socialne_metrike.izkusenost_ekipe * 0.18 +
       r.socialne_metrike.kvaliteta_dokumentacije * 0.18 +
       r.socialne_metrike.angaziranost_skupnosti * 0.15 +
       r.socialne_metrike.pristop_marketinga * 0.10 +
       r.socialne_metrike.prisotnost_na_omrezjih * 0.08 +
       r.socialne_metrike.zdravje_skupnosti * 0.09) * 10 ∧
    r.koncna_ocena =
      (0.40 * r.tehnicna_ocena + 0.35 * r.ekonomska_ocena + 0.25 * r.socialna_ocena) *
        (if 0 < r.verjetnost_prevare then 1 - 0.5 * r.verjetnost_prevare else 1) := by
  unfold klasificiraj at hres
  cases hb : baza identifikator with
  | some zapis => rw [hb] at hres; simp at hres
  | none =>
    rw [hb] at hres
    cases hp : pridobi identifikator with
    | none => rw [hp] at hres; simp at hres
    | some podatki =>
      rw [hp] at hres
      dsimp only at hres
      by_cases hz : (analiziraj_prevare baza podatki
          (podatki.ime.getD identifikator)).je_znana_prevara = true
      · rw [if_pos hz] at hres; simp at hres
      · rw [if_neg hz] at hres
        simp only [Except.ok.injEq, Rezultat.analiza.injEq] at hres
        subst hres
        unfold ustvari_analizo
        dsimp only
        refine ⟨?_, ?_, ?_, ?_⟩
        · unfold TehnicneMetrike.izracunaj_oceno; rfl
        · unfold EkonomskeMetrike.izracunaj_oceno; rfl
        · unfold SocialneMetrike.izracunaj_oceno; rfl
        · unfold UTEZ_TEHNICNE UTEZ_EKONOMSKE UTEZ_SOCIALNE
          split_ifs <;> ring

/-- C1 witness: the pipeline applied to the empty payload. -/
theorem C1_koncna_ocena_witness :
    porociloPrazno.tehnicna_ocena =
      (porociloPrazno.tehnicne_metrike.dostopnost_kode * 0.15 +
       porociloPrazno.tehnicne_metrike.kvaliteta_arhitekture * 0.18 +
       porociloPrazno.tehnicne_metrike.decentralizacija * 0.22 +
       porociloPrazno.tehnicne_metrike.varnostni_mehanizmi * 0.22 +
       porociloPrazno.tehnicne_metrike.status_revizije * 0.13 +
       porociloPrazno.tehnicne_metrike.tveganje_pogodbe * 0.10) * 10 ∧
    porociloPrazno.ekonomska_ocena =
      (porociloPrazno.ekonomske_metrike.pravicnost_distribucije * 0.18 +
       porociloPrazno.ekonomske_metrike.mehanizem_inflacije * 0.12 +
       porociloPrazno.ekonomske_metrike.vesting_urnik * 0.15 +
       porociloPrazno.ekonomske_metrike.koncentracija_lastnistva * 0.20 +
       porociloPrazno.ekonomske_metrike.globina_likvidnosti * 0.15 +
       porociloPrazno.ekonomske_metrike.indikatorji_manipulacije * 0.12 +
       porociloPrazno.ekonomske_metrike.vzdrznost_tokenomike * 0.08) * 10 ∧
    porociloPrazno.socialna_ocena =
      (porociloPrazno.socialne_metrike.transparentnost_ekipe * 0.22 +
       porociloPrazno.socialne_metrike.izkusenost_ekipe * 0.18 +
       porociloPrazno.socialne_metrike.kvaliteta_dokumentacije * 0.18 +
       porociloPrazno.socialne_metrike.angaziranost_skupnosti * 0.15 +
       porociloPrazno.socialne_metrike.pristop_marketinga * 0.10 +
       porociloPrazno.socialne_metrike.prisotnost_na_omrezjih * 0.08 +
       porociloPrazno.socialne_metrike.zdravje_skupnosti * 0.09) * 10 ∧
    porociloPrazno.koncna_ocena =
      (0.40 * porociloPrazno.tehnicna_ocena + 0.35 * porociloPrazno.ekonomska_ocena +
        0.25 * porociloPrazno.socialna_ocena) *
        (if 0 < porociloPrazno.verjetnost_prevare then
          1 - 0.5 * porociloPrazno.verjetnost_prevare
        else 1) :=
  C1_koncna_ocena bazaPrazna pridobiPrazno "x" porociloPrazno rfl
